import Mathlib

/-!
Verification of the coronavirus-dashboard-api-v1 request pipeline.

This file gives a shallow embedding, in Lean 4, of the request-compilation
and response-assembly pipeline of the `api_v1` Azure function:

* the error taxonomy of `api_v1/api_handler/exceptions.py`;
* the error branches of `api_handler` in `api_v1/api.py`;
* the query parser of `api_v1/api_handler/queries.py` (token pattern,
  filter extraction, value conversion, SQL-fragment compilation, page
  number extraction);
* the structure formatter of `api_v1/api_handler/structure.py`;
* the planner arithmetic and response envelope of
  `api_v1/api_handler/database.py` (`get_partition_id`, `get_query`,
  `get_data`, `format_response`).

Python strings are embedded as Lean `String`/`List Char`; machine integers
as `Nat`/`Int` (Python integers are unbounded, so no wrap-around modelling
is needed); fallible code returns `Except`.
-/

namespace CovidApi

/-! ## Error taxonomy — `api_v1/api_handler/exceptions.py`

Each class in `exceptions.py` carries a `code` attribute (an `HTTPStatus`).
Messages are `string.Template`s; no claim depends on the rendered message,
so errors are embedded as a payload-free inductive together with the
`code` table.  -/

/-- The closed taxonomy of typed API errors (`exceptions.py`). -/
inductive ApiError where
  | invalidQueryParameter
  | exceedsMaxParameters
  | invalidStructureParameter
  | incorrectQueryValueType
  | valueNotAcceptable
  | invalidStructure
  | invalidQuery
  | requestTooLarge
  | notAvailable
  | unauthorisedRequest
  | structureTooLarge
  | invalidFormat
  | badPagination
  | missingFilter
  deriving DecidableEq, Repr

/-- The `code` class attribute of each exception class in `exceptions.py`
(the numeric value of the assigned `HTTPStatus` member). -/
def ApiError.code : ApiError → Nat
  | .invalidQueryParameter => 422      -- HTTPStatus.UNPROCESSABLE_ENTITY
  | .exceedsMaxParameters => 413       -- HTTPStatus.REQUEST_ENTITY_TOO_LARGE
  | .invalidStructureParameter => 404  -- HTTPStatus.NOT_FOUND
  | .incorrectQueryValueType => 406    -- HTTPStatus.NOT_ACCEPTABLE
  | .valueNotAcceptable => 417         -- HTTPStatus.EXPECTATION_FAILED
  | .invalidStructure => 417           -- HTTPStatus.EXPECTATION_FAILED
  | .invalidQuery => 412               -- HTTPStatus.PRECONDITION_FAILED
  | .requestTooLarge => 413            -- HTTPStatus.REQUEST_ENTITY_TOO_LARGE
  | .notAvailable => 204               -- HTTPStatus.NO_CONTENT
  | .unauthorisedRequest => 401        -- HTTPStatus.UNAUTHORIZED
  | .structureTooLarge => 413          -- HTTPStatus.REQUEST_ENTITY_TOO_LARGE
  | .invalidFormat => 400              -- HTTPStatus.BAD_REQUEST
  | .badPagination => 400              -- HTTPStatus.BAD_REQUEST
  | .missingFilter => 400              -- HTTPStatus.BAD_REQUEST

/-! ## Error branches of `api_handler` — `api_v1/api.py` lines 102-132

`except APIException` (lines 102-115) coerces the class code:
`code = 400 if 400 <= err.code.real < 500 else err.code.real`, and that
coerced value is both the HTTP status of the returned response and the
`status_code` field of its JSON body.

`except Exception` (lines 117-132) returns a fixed generic body; the
caught exception is only logged, never rendered.  -/

/-- The HTTP status returned for a typed API error
(`api.py` line 103: every 4xx class code is replaced by 400). -/
def api_handler_error_status (err : ApiError) : Nat :=
  if 400 ≤ err.code ∧ err.code < 500 then 400 else err.code

/-- An embedded error-response envelope: the `{response, status_code,
status}` dictionary built by `api_handler`'s `except` branches, together
with the HTTP status of the `HttpResponse` it becomes. -/
structure ErrorResponse where
  response : String
  status_code : Nat
  status : String
  deriving DecidableEq, Repr

/-- The generic branch `except Exception as e` of `api_handler`
(`api.py` lines 117-132).  The argument is the message of the caught
exception; the source only passes it to `logging.exception`, never into
the response. -/
def api_handler_unexpected (excMessage : String) : ErrorResponse :=
  let _ := excMessage   -- logging.exception(e): logged, not surfaced
  { response :=
      "An internal error occurred whilst processing your request, please " ++
      "try again. If the problem persists, please report as an issue and " ++
      "include your request."
  , status_code := 500
  , status := "Internal Server Error" }

/-! ## Uncaught Python exceptions

`int('')` raises `ValueError` and a missing dict key raises `KeyError`;
neither is an `APIException`, so both fall to the generic 500 branch of
`api_handler`.  They are embedded as a second error kind. -/

/-- A Python exception that is not part of the typed taxonomy. -/
inductive PyErr where
  | valueError
  | keyError
  deriving DecidableEq, Repr

/-- Any exception escaping a pipeline stage: a typed `APIException` or an
uncaught Python exception. -/
inductive Err where
  | api (e : ApiError)
  | py (e : PyErr)
  deriving DecidableEq, Repr

/-! ## String utilities

Embeddings of the Python string operations the pipeline uses.  Strings are
processed as `List Char` (all the repository's patterns and values are
ASCII). -/

/-- Index of the first occurrence of `pat` in `hay`, if any
(Python `str.find` / the scan underlying `re.search`). -/
def substr_find (hay pat : List Char) : Option Nat :=
  match hay with
  | [] => if pat = [] then some 0 else none
  | _ :: tl =>
    if pat.isPrefixOf hay then some 0
    else (substr_find tl pat).map (· + 1)

/-- Python `pat in s` (substring containment). -/
def str_contains (s pat : String) : Bool :=
  (substr_find s.data pat.data).isSome

/-- Numeric value of a decimal-digit string (Python `int` on a string of
digits). -/
def string_to_nat (s : String) : Nat :=
  s.data.foldl (fun acc c => acc * 10 + (c.toNat - '0'.toNat)) 0

/-- ASCII lower-casing of one character (the repository's values are
ASCII; Python `str.lower`). -/
def ascii_lower (c : Char) : Char :=
  if 'A' ≤ c ∧ c ≤ 'Z' then Char.ofNat (c.toNat + 32) else c

/-- ASCII upper-casing of one character (Python `str.upper`). -/
def ascii_upper (c : Char) : Char :=
  if 'a' ≤ c ∧ c ≤ 'z' then Char.ofNat (c.toNat - 32) else c

/-- Embeds Python `str.lower` on ASCII data. -/
def py_lower (s : String) : String := String.mk (s.data.map ascii_lower)

/-- Embeds Python `str.upper` on ASCII data. -/
def py_upper (s : String) : String := String.mk (s.data.map ascii_upper)

/-! ## Pagination pattern — `constants.py` line 134 and
`QueryParser.get_page_number` (`queries.py` lines 188-198)

`PAGINATION_PATTERN = re.compile(r"(page=(\d{,3}))")`: the literal
`page=` followed by at most three digits (zero digits allowed).  A
`search` finds the first occurrence of `page=`; group 2 is the greedy
run of at most three digits that follows. -/

/-- Embeds `PAGINATION_PATTERN.search`: `some (group1, group2)` at the first
occurrence of `page=`, where group 2 is up to three following digits. -/
def pagination_pattern_search (query : String) : Option (String × String) :=
  match substr_find query.data "page=".data with
  | none => none
  | some i =>
    let digits := ((query.data.drop (i + 5)).takeWhile Char.isDigit).take 3
    some (String.mk ("page=".data ++ digits), String.mk digits)

/-- Embeds `QueryParser.get_page_number`: `None` when the pattern finds nothing,
otherwise `int(group2)`; `int('')` raises `ValueError` (not caught
anywhere in the handler). -/
def get_page_number (query : String) : Except Err (Option Nat) :=
  match pagination_pattern_search query with
  | none => .ok none
  | some (_, param) =>
    if param = "" then .error (.py .valueError)
    else .ok (some (string_to_nat param))

/-- Fuelled worker for `pagination_pattern_sub` (fuel bounds the number of
scanning steps; each step consumes at least one character, so the input
length is enough fuel). -/
def pagination_pattern_sub_aux : Nat → List Char → List Char
  | 0, cs => cs
  | fuel + 1, cs =>
    match cs with
    | [] => []
    | c :: tl =>
      if "page=".data.isPrefixOf (c :: tl) then
        let rest := (c :: tl).drop 5
        let digits := (rest.takeWhile Char.isDigit).take 3
        pagination_pattern_sub_aux fuel (rest.drop digits.length)
      else
        c :: pagination_pattern_sub_aux fuel tl

/-- Embeds `PAGINATION_PATTERN.sub("", s)`: remove every non-overlapping match
of `page=` plus at most three digits (used on the request URL in
`format_response`). -/
def pagination_pattern_sub (cs : List Char) : List Char :=
  pagination_pattern_sub_aux cs.length cs

/-! ## Partition id — `database.py` lines 249-258

`get_partition_id(area_type, timestamp)` parses the first 26 characters
of the release timestamp with `datetime.fromisoformat` and renders
`f"{ts:%Y_%-m_%-d}_{area_type.lower()}"`, collapsing any area type whose
lower case is not in `single_partition_types` to `"other"`.  Only the
date fields of the ISO timestamp are modelled (the claims depend only on
year, month and day); a malformed date raises `ValueError` in Python and
is `.error` here. -/

/-- Embeds `single_partition_types` (`database.py` line 51). -/
def single_partition_types : List String := ["utla", "ltla", "nhstrust", "msoa"]

/-- Year-month-day fields of `datetime.fromisoformat`: four year digits,
`-`, two month digits, `-`, two day digits, with calendar range checks on
month and day. -/
def fromisoformat_ymd (s : String) : Option (Nat × Nat × Nat) :=
  match s.data with
  | y1 :: y2 :: y3 :: y4 :: '-' :: m1 :: m2 :: '-' :: d1 :: d2 :: _ =>
    if [y1, y2, y3, y4, m1, m2, d1, d2].all Char.isDigit then
      let y := string_to_nat (String.mk [y1, y2, y3, y4])
      let m := string_to_nat (String.mk [m1, m2])
      let d := string_to_nat (String.mk [d1, d2])
      if 1 ≤ m ∧ m ≤ 12 ∧ 1 ≤ d ∧ d ≤ 31 then some (y, m, d) else none
    else none
  | _ => none

/-- Embeds `strftime %Y`: the year zero-padded to four digits. -/
def format_year (y : Nat) : String :=
  let s := toString y
  String.mk (List.replicate (4 - s.length) '0') ++ s

/-- Embeds `get_partition_id` (`database.py` lines 249-258).  `%-m` and `%-d`
render month and day without zero-padding (`Nat.repr`). -/
def get_partition_id (area_type timestamp : String) : Except Err String :=
  match fromisoformat_ymd (timestamp.take 26) with
  | none => .error (.py .valueError)
  | some (y, m, d) =>
    let area_type := if single_partition_types.contains (py_lower area_type)
                     then area_type else "other"
    .ok (format_year y ++ "_" ++ toString m ++ "_" ++ toString d
          ++ "_" ++ py_lower area_type)

/-! ## Planner constants and structure handling — `database.py` / `constants.py` -/

/-- Embeds `MAX_ITEMS_PER_RESPONSE` (`constants.py` line 74). -/
def MAX_ITEMS_PER_RESPONSE : Nat := 2500

/-- Embeds `MAX_QUERY_PARAMS` (`constants.py` line 80). -/
def MAX_QUERY_PARAMS : Nat := 5

/-- Embeds `base_metrics` (`database.py` line 50): the four identity columns. -/
def base_metrics : List String := ["areaCode", "areaType", "areaName", "date"]

/-- A validated response structure as consumed by `get_data`
(`ResponseStructure = Union[Dict[str, str], List[str]]` in `types.py`):
an ordered label→metric mapping or an ordered metric list. -/
inductive ResponseStructure where
  | dict (entries : List (String × String))
  | list (entries : List String)
  deriving DecidableEq, Repr

/-- Embeds `metrics` in `get_data` (`database.py` lines 319-322):
`list(structure.values())` for a mapping, `list(structure)` for a list. -/
def get_data_metrics : ResponseStructure → List String
  | .dict entries => entries.map Prod.snd
  | .list entries => entries

/-- Embeds `page_number` in `get_data` (`database.py` lines 324-327):
the parsed page token, defaulting to 1. -/
def get_data_page_number : Option Nat → Int
  | some p => (p : Int)
  | none => 1

/-- Embeds `n_metrics = len(metrics)` in `get_data` (`database.py` line 329). -/
def get_data_n_metrics (struct : ResponseStructure) : Nat :=
  (get_data_metrics struct).length

/-- Modelled from the claim's words, for refinement comparison only (this
is NOT the source computation): the length of the requested structure
minus the count of the four identity columns it contains. -/
def claim_n_metrics (struct : ResponseStructure) : Nat :=
  (get_data_metrics struct).length
    - ((get_data_metrics struct).filter (fun m => base_metrics.contains m)).length

/-! ## SQL templates — `constants.py` `DBQueries`

`string.Template.substitute` renders `$partition`, `$filters`, `$limit`,
`$offset`, `$latest_by` and turns `$$` into a literal `$`.  The templates
are reproduced verbatim with the substitution points inlined. -/

/-- Embeds `DBQueries.data_query` after substitution. -/
def DBQueries_data_query (partition filters : String) (limit : Nat) (offset : Int) : String :=
  "SELECT\n" ++
  "    area_code             AS \"areaCode\",\n" ++
  "    ref.area_type         AS \"areaType\",\n" ++
  "    area_name             AS \"areaName\",\n" ++
  "    date::VARCHAR         AS date,\n" ++
  "    metric,\n" ++
  "    CASE\n" ++
  "        WHEN (payload ? 'value') THEN (payload -> 'value')\n" ++
  "        ELSE payload::JSONB\n" ++
  "    END AS value\n" ++
  "FROM covid19.time_series_p" ++ partition ++ " AS ts\n" ++
  "JOIN covid19.metric_reference  AS mr  ON mr.id = metric_id\n" ++
  "JOIN covid19.release_reference AS rr  ON rr.id = release_id\n" ++
  "JOIN covid19.area_reference    AS ref ON ref.id = area_id\n" ++
  "WHERE\n" ++
  "      metric = ANY($1::VARCHAR[])\n" ++
  "  AND rr.released IS TRUE\n" ++
  "  " ++ filters ++ "\n" ++
  "ORDER BY area_id, date DESC\n" ++
  "LIMIT " ++ toString limit ++ " OFFSET " ++ toString offset ++ "\n"

/-- Embeds `DBQueries.latest_date_for_metric` after substitution. -/
def DBQueries_latest_date_for_metric (partition filters latest_by : String) : String :=
  "SELECT\n" ++
  "    area_code             AS \"areaCode\",\n" ++
  "    ref.area_type         AS \"areaType\",\n" ++
  "    area_name             AS \"areaName\",\n" ++
  "    date::VARCHAR         AS date,\n" ++
  "    metric,\n" ++
  "    CASE\n" ++
  "        WHEN (payload ? 'value') THEN (payload -> 'value')\n" ++
  "        ELSE payload::JSONB\n" ++
  "    END AS value\n" ++
  "FROM covid19.time_series_p" ++ partition ++ " AS ts\n" ++
  "    JOIN covid19.metric_reference  AS mr  ON mr.id = metric_id\n" ++
  "    JOIN covid19.release_reference AS rr  ON rr.id = release_id\n" ++
  "    JOIN covid19.area_reference    AS ref ON ref.id = area_id\n" ++
  "WHERE\n" ++
  "      metric = ANY($1::VARCHAR[])\n" ++
  "  AND rr.released IS TRUE\n" ++
  "  " ++ filters ++ "\n" ++
  "  AND date = (\n" ++
  "      SELECT MAX(date)\n" ++
  "      FROM covid19.time_series_p" ++ partition ++ " AS ts\n" ++
  "          JOIN covid19.metric_reference  AS mr  ON mr.id = metric_id\n" ++
  "          JOIN covid19.release_reference AS rr  ON rr.id = release_id\n" ++
  "          JOIN covid19.area_reference    AS ref ON ref.id = area_id\n" ++
  "      WHERE\n" ++
  "            rr.released IS TRUE\n" ++
  "        AND metric = '" ++ latest_by ++ "'\n" ++
  "        " ++ filters ++ "\n" ++
  "  )\n" ++
  "ORDER BY area_code, date DESC"

/-- Embeds `DBQueries.exists` after substitution. -/
def DBQueries_exists (partition filters : String) (offset : Int) : String :=
  "SELECT TRUE AS exists\n" ++
  "FROM covid19.time_series_p" ++ partition ++ " AS ts\n" ++
  "    JOIN covid19.metric_reference  AS mr  ON mr.id = metric_id\n" ++
  "    JOIN covid19.release_reference AS rr  ON rr.id = release_id\n" ++
  "    JOIN covid19.area_reference    AS ref ON ref.id = area_id\n" ++
  "WHERE\n" ++
  "      metric = ANY($1::VARCHAR[])\n" ++
  "  AND rr.released IS TRUE\n" ++
  "  " ++ filters ++ "\n" ++
  "OFFSET " ++ toString offset ++ "\n" ++
  "FETCH FIRST 1 ROW ONLY"

/-! ## Query planning — `get_query` (`database.py` lines 261-288) -/

/-- The `limit` argument at `database.py` line 277:
`MAX_ITEMS_PER_RESPONSE * n_metrics`. -/
def data_query_limit (n_metrics : Nat) : Nat :=
  MAX_ITEMS_PER_RESPONSE * n_metrics

/-- The `offset` argument at `database.py` lines 278 and 284:
`MAX_ITEMS_PER_RESPONSE * n_metrics * (page_number - 1)` (an `Int`:
Python would produce a negative offset for `page_number = 0`). -/
def data_query_offset (n_metrics : Nat) (page_number : Int) : Int :=
  (MAX_ITEMS_PER_RESPONSE * n_metrics : Int) * (page_number - 1)

/-- Embeds `get_query` (`database.py` lines 261-288).  `environment` is the
`API_ENV` variable (default `"PRODUCTION"`), `method` the HTTP request
method. -/
def get_query (environment method : String) (latest_by : Option String)
    (partition_id filters : String) (page_number : Int) (n_metrics : Nat) : String :=
  let filters := if environment ≠ "DEVELOPMENT"
                 then filters ++ " AND mr.released IS TRUE" else filters
  match latest_by with
  | some lb => DBQueries_latest_date_for_metric partition_id filters lb
  | none =>
    if method = "GET" then
      DBQueries_data_query partition_id filters
        (data_query_limit n_metrics) (data_query_offset n_metrics page_number)
    else
      DBQueries_exists partition_id filters (data_query_offset n_metrics page_number)

/-! ## URL helpers used by `format_response` -/

/-- Hex value of a hex digit. -/
def hex_val (c : Char) : Nat :=
  if c.isDigit then c.toNat - '0'.toNat
  else if 'a' ≤ c ∧ c ≤ 'f' then c.toNat - 'a'.toNat + 10
  else c.toNat - 'A'.toNat + 10

/-- Is `c` an ASCII hex digit? -/
def is_hex_digit (c : Char) : Bool :=
  c.isDigit || ('a' ≤ c && c ≤ 'f') || ('A' ≤ c && c ≤ 'F')

/-- Embeds `urllib.parse.unquote_plus` on ASCII data: `+` becomes a space and
`%XY` hex escapes are decoded; malformed escapes pass through. -/
def unquote_plus_chars : List Char → List Char
  | [] => []
  | '+' :: tl => ' ' :: unquote_plus_chars tl
  | '%' :: a :: b :: tl =>
    if is_hex_digit a && is_hex_digit b then
      Char.ofNat (16 * hex_val a + hex_val b) :: unquote_plus_chars tl
    else '%' :: unquote_plus_chars (a :: b :: tl)
  | c :: tl => c :: unquote_plus_chars tl

/-- Embeds `urllib.parse.unquote` on ASCII data: `%XY` decoded, `+` left alone. -/
def unquote_chars : List Char → List Char
  | [] => []
  | '%' :: a :: b :: tl =>
    if is_hex_digit a && is_hex_digit b then
      Char.ofNat (16 * hex_val a + hex_val b) :: unquote_chars tl
    else '%' :: unquote_chars (a :: b :: tl)
  | c :: tl => c :: unquote_chars tl

/-- Embeds `urlparse(url).query`: the part after the first `?`, up to a `#`
fragment. -/
def url_query (url : String) : String :=
  match substr_find url.data "?".data with
  | none => ""
  | some i => String.mk ((url.data.drop (i + 1)).takeWhile (· ≠ '#'))

/-- Python `str.strip("&")`: remove `&` from both ends. -/
def strip_amp (s : String) : String :=
  String.mk (((s.data.dropWhile (· = '&')).reverse.dropWhile (· = '&')).reverse)

/-! ## Response envelope — `format_response` (`database.py` lines 207-246)

The pivoted wide `DataFrame` is abstracted as a list of records (only its
`shape[0]` and its verbatim inclusion as `data` matter to the envelope).
The CSV branch is not further modelled: it carries the frame it would
serialise. -/

/-- A wide output record (opaque to the envelope logic). -/
abbrev Row := List (String × String)

/-- One echoed filter triple (`raw_filters` entries built in
`QueryParser.extract_content`). -/
structure RawFilter where
  identifier : String
  operator : String
  value : String
  deriving DecidableEq, Repr

/-- The `pagination` block of the JSON envelope. -/
structure Pagination where
  current : String
  next : Option String
  previous : Option String
  first : String
  last : String
  deriving DecidableEq, Repr

/-- The `requestPayload` block (`struct` embeds the Python key
`structure`, a Lean keyword; exactly one of `page` / `latestBy` is set). -/
structure RequestPayload where
  struct : ResponseStructure
  filters : List RawFilter
  page : Option Int
  latestBy : Option String
  deriving DecidableEq, Repr

/-- The JSON envelope built by `format_response`. -/
structure JsonPayload where
  length : Nat
  maxPageLimit : Nat
  totalRecords : Nat
  data : List Row
  requestPayload : RequestPayload
  pagination : Option Pagination
  deriving DecidableEq, Repr

/-- Output of `format_response`: CSV bytes or the JSON envelope. -/
inductive FormattedResponse where
  | csv (df : List Row)
  | json (payload : JsonPayload)
  deriving DecidableEq, Repr

/-- Embeds `total_pages = int(ceil(count / (MAX_ITEMS_PER_RESPONSE * n_metrics)))`
(`database.py` line 213), as exact ceiling division (`numpy.ceil` on the
float quotient; exact for these magnitudes).  `n_metrics = 0` would raise
`ZeroDivisionError` in Python and is outside every claim. -/
def format_response_total_pages (count n_metrics : Nat) : Nat :=
  (count + MAX_ITEMS_PER_RESPONSE * n_metrics - 1) / (MAX_ITEMS_PER_RESPONSE * n_metrics)

/-- Embeds `format_response` (`database.py` lines 207-246).  `request_url` is
`request.url` and `request_params_latestBy` is
`request.params.get("latestBy")`. -/
def format_response (df : List Row) (request_url : String)
    (request_params_latestBy : Option String) (response_type : String)
    (count : Nat) (page_number : Int) (n_metrics : Nat)
    (struct : ResponseStructure) (raw_filters : List RawFilter) : FormattedResponse :=
  if response_type = "csv" then .csv df
  else
    let total_pages := format_response_total_pages count n_metrics
    let prepped_url := String.mk (pagination_pattern_sub request_url.data)
    let url := strip_amp (String.mk
      (unquote_plus_chars ("/v1/data?" ++ url_query prepped_url).data))
    let count := if str_contains prepped_url "latestBy" then df.length else count
    match request_params_latestBy with
    | none =>
      .json
        { length := df.length
        , maxPageLimit := MAX_ITEMS_PER_RESPONSE
        , totalRecords := count
        , data := df
        , requestPayload :=
            { struct := struct, filters := raw_filters
            , page := some page_number, latestBy := none }
        , pagination := some
            { current := url ++ "&page=" ++ toString page_number
            , next := if page_number < (total_pages : Int)
                      then some (url ++ "&page=" ++ toString (page_number + 1)) else none
            , previous := if page_number - 1 > 0
                          then some (url ++ "&page=" ++ toString (page_number - 1)) else none
            , first := url ++ "&page=1"
            , last := url ++ "&page=" ++ toString (total_pages : Int) } }
    | some latest_by =>
      .json
        { length := df.length
        , maxPageLimit := MAX_ITEMS_PER_RESPONSE
        , totalRecords := count
        , data := df
        , requestPayload :=
            { struct := struct, filters := raw_filters
            , page := none, latestBy := some latest_by }
        , pagination := none }

/-! ## Metric catalog and type coercion — `constants.py` / `queries.py`

`DATA_TYPES` maps each metric name to the Python callable used to coerce
filter values (`str`, `int`, `float`, `datetime`, `list`).  The
production table (`constants.py` lines 282-534) is embedded verbatim as
an association list; `dict`-style lookup is `List.lookup` (keys are
unique). -/

/-- The Python type callables appearing as `DATA_TYPES` values. -/
inductive DType where
  | pstr
  | pint
  | pfloat
  | pdatetime
  | plist
  deriving DecidableEq, Repr

/-- The production `DATA_TYPES` table (`constants.py` lines 282-534),
embedded in blocks of fifty entries (pure elaboration-time chunking; the
concatenation below is the table in source order). -/
def DATA_TYPES_1 : List (String × DType) := [
  ("hash", DType.pstr),
  ("areaType", DType.pstr),
  ("date", DType.pdatetime),
  ("areaName", DType.pstr),
  ("areaNameLower", DType.pstr),
  ("areaCode", DType.pstr),
  ("covidOccupiedMVBeds", DType.pint),
  ("covidOccupiedMVBedsWeekly", DType.pint),
  ("cumAdmissions", DType.pint),
  ("cumCasesByPublishDate", DType.pint),
  ("cumPillarFourTestsByPublishDate", DType.pint),
  ("cumPillarOneTestsByPublishDate", DType.pint),
  ("cumPillarThreeTestsByPublishDate", DType.pint),
  ("cumPillarTwoTestsByPublishDate", DType.pint),
  ("cumTestsByPublishDate", DType.pint),
  ("hospitalCases", DType.pint),
  ("hospitalCases_archive", DType.pint),
  ("hospitalCasesWeekly", DType.pint),
  ("hospitalCasesWeekly_archive", DType.pint),
  ("newAdmissions", DType.pint),
  ("newAdmissions_archive", DType.pint),
  ("newAdmissionsWeekly", DType.pint),
  ("newAdmissionsWeekly_archive", DType.pint),
  ("newCasesByPublishDate", DType.pint),
  ("newPillarFourTestsByPublishDate", DType.pint),
  ("newPillarOneTestsByPublishDate", DType.pint),
  ("newPillarThreeTestsByPublishDate", DType.pint),
  ("newPillarTwoTestsByPublishDate", DType.pint),
  ("newTestsByPublishDate", DType.pint),
  ("plannedCapacityByPublishDate", DType.pint),
  ("newCasesBySpecimenDate", DType.pint),
  ("cumCasesBySpecimenDate", DType.pint),
  ("maleCases", DType.plist),
  ("femaleCases", DType.plist),
  ("cumAdmissionsByAge", DType.plist),
  ("femaleDeaths28Days", DType.plist),
  ("maleDeaths28Days", DType.plist),
  ("changeInNewCasesBySpecimenDate", DType.pint),
  ("previouslyReportedNewCasesBySpecimenDate", DType.pint),
  ("cumCasesBySpecimenDateRate", DType.pfloat),
  ("cumCasesByPublishDateRate", DType.pfloat),
  ("release", DType.pdatetime),
  ("newDeathsByDeathDate", DType.pint),
  ("newDeathsByDeathDateRate", DType.pfloat),
  ("newDeathsByDeathDateRollingRate", DType.pfloat),
  ("newDeathsByDeathDateRollingSum", DType.pint),
  ("cumDeathsByDeathDate", DType.pint),
  ("cumDeathsByDeathDateRate", DType.pfloat),
  ("newDeathsByPublishDate", DType.pint),
  ("cumDeathsByPublishDate", DType.pint)
]

def DATA_TYPES_2 : List (String × DType) := [
  ("cumDeathsByPublishDateRate", DType.pfloat),
  ("newDeaths28DaysByDeathDate", DType.pint),
  ("newDeaths28DaysByDeathDateRate", DType.pfloat),
  ("newDeaths28DaysByDeathDateRollingRate", DType.pfloat),
  ("newDeaths28DaysByDeathDateRollingSum", DType.pint),
  ("cumDeaths28DaysByDeathDate", DType.pint),
  ("cumDeaths28DaysByDeathDateRate", DType.pfloat),
  ("newDeaths28DaysByPublishDate", DType.pint),
  ("cumDeaths28DaysByPublishDate", DType.pint),
  ("cumDeaths28DaysByPublishDateRate", DType.pfloat),
  ("newDeaths60DaysByDeathDate", DType.pint),
  ("newDeaths60DaysByDeathDateRate", DType.pfloat),
  ("newDeaths60DaysByDeathDateRollingRate", DType.pfloat),
  ("newDeaths60DaysByDeathDateRollingSum", DType.pint),
  ("cumDeaths60DaysByDeathDate", DType.pint),
  ("cumDeaths60DaysByDeathDateRate", DType.pfloat),
  ("newDeaths60DaysByPublishDate", DType.pint),
  ("cumDeaths60DaysByPublishDate", DType.pint),
  ("cumDeaths60DaysByPublishDateRate", DType.pfloat),
  ("newOnsDeathsByRegistrationDate", DType.pint),
  ("cumOnsDeathsByRegistrationDate", DType.pint),
  ("cumOnsDeathsByRegistrationDateRate", DType.pfloat),
  ("capacityPillarOneTwoFour", DType.pint),
  ("newPillarOneTwoTestsByPublishDate", DType.pint),
  ("capacityPillarOneTwo", DType.pint),
  ("capacityPillarThree", DType.pint),
  ("capacityPillarOne", DType.pint),
  ("capacityPillarTwo", DType.pint),
  ("capacityPillarFour", DType.pint),
  ("cumPillarOneTwoTestsByPublishDate", DType.pint),
  ("newPCRTestsByPublishDate", DType.pint),
  ("cumPCRTestsByPublishDate", DType.pint),
  ("plannedPCRCapacityByPublishDate", DType.pint),
  ("plannedAntibodyCapacityByPublishDate", DType.pint),
  ("newAntibodyTestsByPublishDate", DType.pint),
  ("cumAntibodyTestsByPublishDate", DType.pint),
  ("alertLevel", DType.pint),
  ("transmissionRateMin", DType.pfloat),
  ("transmissionRateMax", DType.pfloat),
  ("transmissionRateGrowthRateMin", DType.pfloat),
  ("transmissionRateGrowthRateMax", DType.pfloat),
  ("newLFDTestsBySpecimenDate", DType.pint),
  ("cumLFDTestsBySpecimenDate", DType.pint),
  ("newVirusTestsByPublishDate", DType.pint),
  ("cumVirusTestsByPublishDate", DType.pint),
  ("newCasesBySpecimenDateDirection", DType.pstr),
  ("newCasesBySpecimenDateChange", DType.pint),
  ("newCasesBySpecimenDateChangePercentage", DType.pfloat),
  ("newCasesBySpecimenDateRollingSum", DType.pint),
  ("newCasesBySpecimenDateRollingRate", DType.pfloat)
]

def DATA_TYPES_3 : List (String × DType) := [
  ("newCasesByPublishDateDirection", DType.pstr),
  ("newCasesByPublishDateChange", DType.pint),
  ("newCasesByPublishDateChangePercentage", DType.pfloat),
  ("newCasesByPublishDateRollingSum", DType.pint),
  ("newCasesByPublishDateRollingRate", DType.pfloat),
  ("newAdmissionsDirection", DType.pstr),
  ("newAdmissionsChange", DType.pint),
  ("newAdmissionsChangePercentage", DType.pfloat),
  ("newAdmissionsRollingSum", DType.pint),
  ("newAdmissionsRollingRate", DType.pfloat),
  ("newDeaths28DaysByPublishDateDirection", DType.pstr),
  ("newDeaths28DaysByPublishDateChange", DType.pint),
  ("newDeaths28DaysByPublishDateChangePercentage", DType.pfloat),
  ("newDeaths28DaysByPublishDateRollingSum", DType.pint),
  ("newDeaths28DaysByPublishDateRollingRate", DType.pfloat),
  ("newPCRTestsByPublishDateDirection", DType.pstr),
  ("newPCRTestsByPublishDateChange", DType.pint),
  ("newPCRTestsByPublishDateChangePercentage", DType.pfloat),
  ("newPCRTestsByPublishDateRollingSum", DType.pint),
  ("newPCRTestsByPublishDateRollingRate", DType.pfloat),
  ("newVirusTestsDirection", DType.pstr),
  ("newVirusTestsChange", DType.pint),
  ("newVirusTestsChangePercentage", DType.pfloat),
  ("newVirusTestsRollingSum", DType.pint),
  ("newVirusTestsRollingRate", DType.pfloat),
  ("newCasesByPublishDateAgeDemographics", DType.plist),
  ("newCasesBySpecimenDateAgeDemographics", DType.plist),
  ("newDeaths28DaysByDeathDateAgeDemographics", DType.plist),
  ("variants", DType.plist),
  ("uniqueCasePositivityBySpecimenDateRollingSum", DType.pfloat),
  ("uniquePeopleTestedBySpecimenDateRollingSum", DType.pint),
  ("newDailyNsoDeathsByDeathDateChange", DType.pint),
  ("newDailyNsoDeathsByDeathDateChangePercentage", DType.pfloat),
  ("newDailyNsoDeathsByDeathDateDirection", DType.pstr),
  ("newDailyNsoDeathsByDeathDateRollingSum", DType.pint),
  ("newDailyNsoDeathsByDeathDate", DType.pint),
  ("cumDailyNsoDeathsByDeathDate", DType.pint),
  ("cumWeeklyNsoDeathsByRegDate", DType.pint),
  ("cumWeeklyNsoDeathsByRegDateRate", DType.pfloat),
  ("newWeeklyNsoDeathsByRegDate", DType.pint),
  ("cumWeeklyNsoCareHomeDeathsByRegDate", DType.pint),
  ("newWeeklyNsoCareHomeDeathsByRegDate", DType.pint),
  ("newPeopleReceivingFirstDose", DType.pint),
  ("cumPeopleReceivingFirstDose", DType.pint),
  ("newPeopleReceivingSecondDose", DType.pint),
  ("cumPeopleReceivingSecondDose", DType.pint),
  ("cumPeopleVaccinatedFirstDoseByPublishDate", DType.pint),
  ("cumPeopleVaccinatedSecondDoseByPublishDate", DType.pint),
  ("newPeopleVaccinatedFirstDoseByPublishDate", DType.pint),
  ("cumPeopleVaccinatedCompleteByPublishDate", DType.pint)
]

def DATA_TYPES_4 : List (String × DType) := [
  ("newPeopleVaccinatedCompleteByPublishDate", DType.pint),
  ("newPeopleVaccinatedSecondDoseByPublishDate", DType.pint),
  ("weeklyPeopleVaccinatedFirstDoseByVaccinationDate", DType.pint),
  ("weeklyPeopleVaccinatedSecondDoseByVaccinationDate", DType.pint),
  ("cumPeopleVaccinatedSecondDoseByVaccinationDate", DType.pint),
  ("newCasesLFDConfirmedPCRBySpecimenDateRollingSum", DType.pint),
  ("newCasesLFDConfirmedPCRBySpecimenDate", DType.pint),
  ("newCasesLFDConfirmedPCRBySpecimenDateRollingRate", DType.pfloat),
  ("cumCasesLFDOnlyBySpecimenDate", DType.pint),
  ("cumCasesPCROnlyBySpecimenDate", DType.pint),
  ("newCasesPCROnlyBySpecimenDateRollingSum", DType.pint),
  ("newCasesLFDOnlyBySpecimenDateRollingRate", DType.pfloat),
  ("newCasesPCROnlyBySpecimenDateRollingRate", DType.pfloat),
  ("newCasesLFDOnlyBySpecimenDateRollingSum", DType.pint),
  ("cumCasesLFDConfirmedPCRBySpecimenDate", DType.pint),
  ("newCasesPCROnlyBySpecimenDate", DType.pint),
  ("newCasesLFDOnlyBySpecimenDate", DType.pint),
  ("newVaccinesGivenByPublishDate", DType.pint),
  ("cumVaccinesGivenByPublishDate", DType.pint),
  ("cumVaccinationFirstDoseUptakeByPublishDatePercentage", DType.pfloat),
  ("cumVaccinationSecondDoseUptakeByPublishDatePercentage", DType.pfloat),
  ("cumVaccinationCompleteCoverageByPublishDatePercentage", DType.pfloat),
  ("newPeopleVaccinatedFirstDoseByVaccinationDate", DType.pint),
  ("cumPeopleVaccinatedFirstDoseByVaccinationDate", DType.pint),
  ("cumVaccinationSecondDoseUptakeByVaccinationDatePercentage", DType.pfloat),
  ("VaccineRegisterPopulationByVaccinationDate", DType.pint),
  ("newPeopleVaccinatedSecondDoseByVaccinationDate", DType.pint),
  ("cumPeopleVaccinatedCompleteByVaccinationDate", DType.pint),
  ("cumVaccinationFirstDoseUptakeByVaccinationDatePercentage", DType.pfloat),
  ("cumVaccinationCompleteCoverageByVaccinationDatePercentage", DType.pfloat),
  ("newPeopleVaccinatedCompleteByVaccinationDate", DType.pint),
  ("vaccinationsAgeDemographics", DType.plist),
  ("cumPeopleVaccinatedThirdDoseByPublishDate", DType.pint),
  ("newPeopleVaccinatedThirdDoseByPublishDate", DType.pint),
  ("cumVaccinationBoosterDoseUptakeByPublishDatePercentage", DType.pfloat),
  ("cumPeopleVaccinatedThirdInjectionByPublishDate", DType.pint),
  ("newPeopleVaccinatedThirdInjectionByPublishDate", DType.pint),
  ("newPeopleVaccinatedBoosterDoseByPublishDate", DType.pint),
  ("cumVaccinationThirdInjectionUptakeByPublishDatePercentage", DType.pfloat),
  ("cumPeopleVaccinatedBoosterDoseByPublishDate", DType.pint),
  ("cumPeopleVaccinatedAutumn22ByVaccinationDate50plus", DType.pint),
  ("cumVaccinationAutumn22UptakeByVaccinationDatePercentage50plus", DType.pfloat),
  ("newPeopleVaccinatedSpring23ByVaccinationDate75plus", DType.pint),
  ("cumPeopleVaccinatedSpring23ByVaccinationDate75plus", DType.pint),
  ("cumVaccinationSpring23UptakeByVaccinationDatePercentage75plus", DType.pfloat),
  ("newPeopleVaccinatedAutumn23ByVaccinationDate65plus", DType.pint),
  ("cumPeopleVaccinatedAutumn23ByVaccinationDate65plus", DType.pint),
  ("cumVaccinationAutumn23UptakeByVaccinationDatePercentage65plus", DType.pfloat),
  ("cumPCRTestsBySpecimenDate", DType.pint),
  ("newPCRTestsBySpecimenDate", DType.pint)
]

def DATA_TYPES_5 : List (String × DType) := [
  ("newVirusTestsBySpecimenDate", DType.pint),
  ("newVirusTestsBySpecimenDateChange", DType.pint),
  ("newVirusTestsBySpecimenDateChangePercentage", DType.pfloat),
  ("newVirusTestsBySpecimenDateDirection", DType.pstr),
  ("newVirusTestsBySpecimenDateRollingSum", DType.pint),
  ("newVirusTestsByPublishDateRollingSum", DType.pint),
  ("cumVirusTestsBySpecimenDate", DType.pint),
  ("cumVaccinationThirdInjectionUptakeByVaccinationDatePercentage", DType.pfloat),
  ("newPeopleVaccinatedThirdInjectionByVaccinationDate", DType.pint),
  ("cumPeopleVaccinatedThirdInjectionByVaccinationDate", DType.pint),
  ("cumFirstEpisodesBySpecimenDate", DType.pint),
  ("cumFirstEpisodesBySpecimenDateRate", DType.pfloat),
  ("cumReinfectionsBySpecimenDate", DType.pint),
  ("cumReinfectionsBySpecimenDateRate", DType.pfloat),
  ("newFirstEpisodesBySpecimenDate", DType.pint),
  ("newFirstEpisodesBySpecimenDateChange", DType.pint),
  ("newFirstEpisodesBySpecimenDateChangePercentage", DType.pfloat),
  ("newFirstEpisodesBySpecimenDateDirection", DType.pstr),
  ("newFirstEpisodesBySpecimenDateRollingRate", DType.pfloat),
  ("newFirstEpisodesBySpecimenDateRollingSum", DType.pint),
  ("newReinfectionsBySpecimenDate", DType.pint),
  ("newReinfectionsBySpecimenDateChange", DType.pint),
  ("newReinfectionsBySpecimenDateChangePercentage", DType.pfloat),
  ("newReinfectionsBySpecimenDateDirection", DType.pstr),
  ("newReinfectionsBySpecimenDateRollingRate", DType.pfloat),
  ("newReinfectionsBySpecimenDateRollingSum", DType.pint),
  ("changeInNewDeaths28DaysByDeathDate", DType.pint),
  ("previouslyReportedNewDeaths28DaysByDeathDate", DType.pint),
  ("newFirstEpisodesBySpecimenDateAgeDemographics", DType.plist),
  ("newReinfectionsBySpecimenDateAgeDemographics", DType.plist),
  ("newCasesPillarOneBySpecimenDate", DType.pint),
  ("newCasesPillarOneBySpecimenDateDirection", DType.pstr),
  ("newCasesPillarOneBySpecimenDateChange", DType.pint),
  ("newCasesPillarOneBySpecimenDateChangePercentage", DType.pfloat),
  ("newCasesPillarOneBySpecimenDateRollingSum", DType.pint),
  ("newCasesPillarOneBySpecimenDateRollingRate", DType.pfloat),
  ("cumCasesPillarOneBySpecimenDate", DType.pint),
  ("cumCasesPillarOneBySpecimenDateRate", DType.pfloat),
  ("newCasesPillarTwoBySpecimenDate", DType.pint),
  ("newCasesPillarTwoBySpecimenDateDirection", DType.pstr),
  ("newCasesPillarTwoBySpecimenDateChange", DType.pint),
  ("newCasesPillarTwoBySpecimenDateChangePercentage", DType.pfloat),
  ("newCasesPillarTwoBySpecimenDateRollingSum", DType.pint),
  ("newCasesPillarTwoBySpecimenDateRollingRate", DType.pfloat),
  ("cumCasesPillarTwoBySpecimenDate", DType.pint),
  ("cumCasesPillarTwoBySpecimenDateRate", DType.pfloat),
  ("newDeaths28DaysByDeathDateChange", DType.pint),
  ("newDeaths28DaysByDeathDateChangePercentage", DType.pfloat),
  ("newVirusTestsByPublishDateChange", DType.pint),
  ("newVirusTestsByPublishDateChangePercentage", DType.pfloat)
]

def DATA_TYPES : List (String × DType) := DATA_TYPES_1 ++ DATA_TYPES_2 ++ DATA_TYPES_3 ++ DATA_TYPES_4 ++ DATA_TYPES_5

/-- Embeds `DATE_PARAMS` (`constants.py` line 84). -/
def DATE_PARAMS : List String := ["releaseTimestamp", "date"]

/-- Embeds `AREA_TYPES` (`constants.py` lines 152-160): canonicalisation of
area-type values. -/
def AREA_TYPES : List (String × String) := [
  ("utla", "utla"), ("ltla", "ltla"), ("region", "region"),
  ("nhsregion", "nhsRegion"), ("overview", "overview"),
  ("nation", "nation"), ("nhstrust", "nhsTrust")
]

/-- Embeds `RESTRICTED_PARAMETER_VALUES` (`constants.py` line 544): the empty
dict (the environment-specific update is commented out in the source). -/
def RESTRICTED_PARAMETER_VALUES : List (String × List String) := []

/-- Does `\d{4}-\d{2}-\d{2}` match at the head of `cs`? -/
def date_shape_at (cs : List Char) : Bool :=
  match cs with
  | y1 :: y2 :: y3 :: y4 :: '-' :: m1 :: m2 :: '-' :: d1 :: d2 :: _ =>
    [y1, y2, y3, y4, m1, m2, d1, d2].all Char.isDigit
  | _ => false

/-- Embeds `re.search` of `\d{4}-\d{2}-\d{2}` anywhere in `cs`. -/
def date_shape_search : List Char → Bool
  | [] => false
  | c :: tl => date_shape_at (c :: tl) || date_shape_search tl

/-- Embeds `TypePatterns` (`constants.py` lines 145-150) as `re.search`
predicates; `none` embeds the `KeyError` for types with no pattern
(e.g. `list`). -/
def TypePatterns : DType → Option (String → Bool)
  | .pstr => some (fun v => v.data.any Char.isAlpha)            -- [a-z]+, IGNORECASE
  | .pint => some (fun v => v.data.any Char.isDigit)            -- \d{1,7}
  | .pfloat => some (fun v => v.data.any (fun c => c.isDigit || c = '.'))  -- [0-9.]{1,8}
  | .pdatetime => some (fun v => date_shape_search v.data)      -- \d{4}-\d{2}-\d{2}
  | .plist => none

/-- A coerced query value (`StringOrNumber` plus the `datetime.date`
produced by the date transformer; float literals are kept symbolic, no
claim depends on float arithmetic). -/
inductive QueryValue where
  | vstr (s : String)
  | vint (n : Int)
  | vfloat (lit : String)
  | vdate (iso : String)
  deriving DecidableEq, Repr

/-- Python `int(value)` on a string: optional sign then decimal digits,
otherwise `ValueError` (which no handler code catches). -/
def py_int_of_string (s : String) : Except Err Int :=
  match s.data with
  | '-' :: ds => if ds ≠ [] ∧ ds.all Char.isDigit
               then .ok (-(string_to_nat (String.mk ds) : Int))
               else .error (.py .valueError)
  | '+' :: ds => if ds ≠ [] ∧ ds.all Char.isDigit
               then .ok (string_to_nat (String.mk ds) : Int)
               else .error (.py .valueError)
  | ds => if ds ≠ [] ∧ ds.all Char.isDigit
          then .ok (string_to_nat (String.mk ds) : Int)
          else .error (.py .valueError)

/-- Is `s` a decimal literal `float(s)` accepts (optional sign, at least
one digit, at most one dot; exponents do not occur in practice since a
value with `e` would have matched the text pattern)? -/
def py_float_ok (s : String) : Bool :=
  let body := match s.data with
    | '-' :: tl => tl
    | '+' :: tl => tl
    | tl => tl
  body.any Char.isDigit
    && (body.filter (· = '.')).length ≤ 1
    && body.all (fun c => c.isDigit || c = '.')

/-- Embeds `dtype(value)` at `queries.py` line 106 for the non-datetime types. -/
def dtype_call (dt : DType) (value : String) : Except Err QueryValue :=
  match dt with
  | .pstr => .ok (.vstr value)
  | .pint => (py_int_of_string value).map .vint
  | .pfloat => if py_float_ok value then .ok (.vfloat value) else .error (.py .valueError)
  | .pdatetime => .ok (.vstr value)   -- unreachable: handled before the call
  | .plist => .ok (.vstr value)       -- unreachable: TypePatterns lookup failed earlier

/-- Embeds `convert_value_type` (`queries.py` lines 47-120).  A `KeyError` on
either dict lookup is caught by the `except KeyError` clause and becomes
`InvalidQueryParameter`; a failed pattern search is `ValueNotAcceptable`;
a datetime value is returned as `f"{value}T00:00:00.000000Z"`. -/
def convert_value_type (name operator value : String) : Except Err QueryValue :=
  let _ := operator   -- used only in the exception message
  match DATA_TYPES.lookup name with
  | none => .error (.api .invalidQueryParameter)
  | some dtype =>
    match TypePatterns dtype with
    | none => .error (.api .invalidQueryParameter)
    | some pattern =>
      if pattern value then
        if dtype = .pdatetime then .ok (.vstr (value ++ "T00:00:00.000000Z"))
        else dtype_call dtype value
      else .error (.api .valueNotAcceptable)

/-! ## String transformers — `STRING_TRANSFORMATION` (`constants.py` lines 162-186)

The dict is keyed by the exact filter name; `dict.get` with the
`DEFAULT` fallback selects the transformer.  `param_fn` rewrites the SQL
column spelling via Python `str.replace` (replace-all); `value_fn`
post-processes the converted value; `input_argument` is the identity on
the placeholder text for every entry (including `"{}".format` for
`date`). -/

/-- Fuelled replace-all on character lists (Python `str.replace`); the
pattern is non-empty for every use in the source. -/
def py_replace_aux (pat repl : List Char) : Nat → List Char → List Char
  | 0, cs => cs
  | _ + 1, [] => []
  | fuel + 1, c :: tl =>
    if pat ≠ [] ∧ pat.isPrefixOf (c :: tl) then
      repl ++ py_replace_aux pat repl fuel ((c :: tl).drop pat.length)
    else
      c :: py_replace_aux pat repl fuel tl

/-- Embeds Python `s.replace(pat, repl)`. -/
def py_replace (s pat repl : String) : String :=
  String.mk (py_replace_aux pat.data repl.data s.data.length s.data)

/-- Embeds `param_fn` of the transformer selected for `name`:
`areaName → LOWER(area_name)`, `areaType → area_type`,
`areaCode → area_code`, `date → str(name)`, default → identity. -/
def STRING_TRANSFORMATION_param_fn (name : String) : String :=
  if name = "areaName" then py_replace name "areaName" "LOWER(area_name)"
  else if name = "areaType" then py_replace name "areaType" "area_type"
  else if name = "date" then name
  else if name = "areaCode" then py_replace name "areaCode" "area_code"
  else name

/-- Embeds `input_argument` of the transformer selected for `name`: the
identity on the placeholder string for every entry. -/
def STRING_TRANSFORMATION_input_argument (name arg : String) : String :=
  let _ := name
  arg

/-- Embeds the `datetime.strptime(x.split("T")[0], "%Y-%m-%d").date()`
value function of the `date` transformer: the part before the first `T`
must be exactly `YYYY-MM-DD`. -/
def py_strptime_date (s : String) : Except Err String :=
  let head := s.data.takeWhile (· ≠ 'T')
  if head.length = 10 ∧ (fromisoformat_ymd (String.mk head)).isSome
  then .ok (String.mk head)
  else .error (.py .valueError)

/-- Embeds `value_fn` of the transformer selected for `name`.  All
failures are uncaught Python exceptions: `str.lower`/`str.upper` on a
non-string raise `TypeError` (embedded as `valueError`, the distinction
is unused), `AREA_TYPES[...]` raises `KeyError` for an unknown area
type, `strptime` raises `ValueError` on a malformed date. -/
def STRING_TRANSFORMATION_value_fn (name : String) (v : QueryValue) : Except Err QueryValue :=
  if name = "areaName" then
    match v with
    | .vstr s => .ok (.vstr (py_lower s))
    | _ => .error (.py .valueError)
  else if name = "areaType" then
    match v with
    | .vstr s =>
      match AREA_TYPES.lookup (py_lower s) with
      | some canonical => .ok (.vstr canonical)
      | none => .error (.py .keyError)
    | _ => .error (.py .keyError)
  else if name = "date" then
    match v with
    | .vstr s => (py_strptime_date s).map .vdate
    | _ => .error (.py .valueError)
  else if name = "areaCode" then
    match v with
    | .vstr s => .ok (.vstr (py_upper s))
    | _ => .error (.py .valueError)
  else .ok v

/-! ## Filter compilation — `QueryParser.extract_content`
(`queries.py` lines 245-320)

One token per match of `token_pattern`: named groups `name`, `operator`,
`value`, `connector`. -/

/-- One match of `token_pattern`. -/
structure Token where
  name : String
  operator : String
  value : String
  connector : String
  deriving DecidableEq, Repr

/-- Embeds `QueryData` (`types.py`): `area_type` is `None` until an
`areaType` predicate is seen. -/
structure QueryData where
  arguments : List QueryValue
  query : String
  area_type : Option QueryValue
  deriving DecidableEq, Repr

/-- One iteration of the `extract_content` loop (`queries.py` lines
272-307) at placeholder index `index`, threading the accumulated SQL
fragment, argument list, echoed raw filters and `area_type`. -/
def extract_content_step (t : Token) (index : Nat) (query : String)
    (arguments : List QueryValue) (raw_filters : List RawFilter)
    (area_type : Option QueryValue) :
    Except Err (String × List QueryValue × List RawFilter × Option QueryValue) :=
  let restricted_fails :=
    match RESTRICTED_PARAMETER_VALUES.lookup t.name with
    | some allowed => !(allowed.contains (py_lower t.value))
    | none => false
  if restricted_fails then .error (.api .unauthorisedRequest)
  else
    let raw_filters := raw_filters ++
      [{ identifier := t.name, operator := t.operator, value := t.value }]
    match convert_value_type t.name t.operator t.value with
    | .error e => .error e
    | .ok value =>
      let param_name := STRING_TRANSFORMATION_param_fn t.name
      let area_type := if t.name = "areaType" then some value else area_type
      let query := query ++ param_name ++ " " ++ t.operator ++ " " ++
        STRING_TRANSFORMATION_input_argument t.name ("$" ++ toString index)
      match STRING_TRANSFORMATION_value_fn t.name value with
      | .error e => .error e
      | .ok argval =>
        let arguments := arguments ++ [argval]
        let query := if t.connector = ";" then query ++ " AND "
                     else if t.connector = "|" then query ++ " OR "
                     else query
        .ok (query, arguments, raw_filters, area_type)

/-- The `extract_content` loop over all tokens (`enumerate(..., start=2)`
numbers the placeholders). -/
def extract_content_loop (tokens : List Token) (index : Nat) (query : String)
    (arguments : List QueryValue) (raw_filters : List RawFilter)
    (area_type : Option QueryValue) :
    Except Err (String × List QueryValue × List RawFilter × Option QueryValue) :=
  match tokens with
  | [] => .ok (query, arguments, raw_filters, area_type)
  | t :: rest =>
    match extract_content_step t index query arguments raw_filters area_type with
    | .error e => .error e
    | .ok (query, arguments, raw_filters, area_type) =>
      extract_content_loop rest (index + 1) query arguments raw_filters area_type

/-- Embeds `extract_content` on an already-tokenised filter string
(`queries.py` lines 245-320): runs the loop from placeholder 2 with the
seed fragment `"AND "`, then applies the size guards.  Returns the
`QueryData` together with the `self.raw_filters` side effect. -/
def extract_content (tokens : List Token) : Except Err (QueryData × List RawFilter) :=
  match extract_content_loop tokens 2 "AND " [] [] none with
  | .error e => .error e
  | .ok (query, arguments, raw_filters, area_type) =>
    if arguments.length > MAX_QUERY_PARAMS then .error (.api .exceedsMaxParameters)
    else if arguments.length = 0 then .error (.api .invalidQuery)
    else .ok ({ arguments := arguments, query := query, area_type := area_type }, raw_filters)

/-! ## Token pattern — `QueryParser.token_pattern` (`queries.py` lines 156-166)

`(?P<name>[a-z]{2,75})(?P<operator>[<>!]?=?)(?P<value>[a-z0-9,'.\-()\s]{1,75})(?P<connector>[;|]?)`
with `re.I | re.X`.  `finditer` scans left to right; at each position the
greedy groups backtrack: the name tries its maximal letter run (capped at
75) down to 2, the operator tries `X=`, `X`, `=`, empty in that order,
the value takes its maximal run (capped at 75, at least 1) and the
connector takes `;` or `|` when present. -/

/-- Membership in the value character class `[a-z0-9,'.\-()\s]` with
`re.I` (`\s` is `[ \t\n\r\f\v]`). -/
def is_value_char (c : Char) : Bool :=
  c.isAlpha || c.isDigit ||
    c = ',' || c = '\x27' || c = '.' || c = '-' || c = '(' || c = ')' ||
    c = ' ' || c = '\t' || c = '\n' || c = '\r' || c = '\x0b' || c = '\x0c'

/-- The ordered alternatives of the greedy optional operator
`[<>!]?=?`: each is the consumed text paired with the rest. -/
def operator_alternatives (cs : List Char) : List (String × List Char) :=
  let sym := fun c => c = '<' || c = '>' || c = '!'
  let with_sym :=
    match cs with
    | c :: tl =>
      if sym c then
        match tl with
        | '=' :: tl2 => [(String.mk [c, '='], tl2), (String.mk [c], tl)]
        | _ => [(String.mk [c], tl)]
      else []
    | [] => []
  let eq_only :=
    match cs with
    | '=' :: tl => [("=", tl)]
    | _ => []
  with_sym ++ eq_only ++ [("", cs)]

/-- Value and connector groups after a candidate name and operator:
fails when the value run is empty. -/
def try_value_connector (name operator : String) (cs : List Char) :
    Option (Token × List Char) :=
  let vrun := (cs.takeWhile is_value_char).take 75
  if vrun.isEmpty then none
  else
    let rest := cs.drop vrun.length
    match rest with
    | c :: tl =>
      if c = ';' || c = '|' then
        some ({ name := name, operator := operator,
                value := String.mk vrun, connector := String.mk [c] }, tl)
      else
        some ({ name := name, operator := operator,
                value := String.mk vrun, connector := "" }, rest)
    | [] =>
      some ({ name := name, operator := operator,
              value := String.mk vrun, connector := "" }, [])

/-- Backtracking over name lengths `k, k-1, …, 2` at a fixed start
position. -/
def try_name_lengths (cs : List Char) : Nat → Option (Token × List Char)
  | 0 => none
  | 1 => none
  | k + 2 =>
    let name := String.mk (cs.take (k + 2))
    let rest := cs.drop (k + 2)
    let attempt := (operator_alternatives rest).findSome?
      (fun alt => try_value_connector name alt.1 alt.2)
    match attempt with
    | some res => some res
    | none => try_name_lengths cs (k + 1)

/-- One attempted match of `token_pattern` anchored at the head of
`cs`. -/
def match_token_at (cs : List Char) : Option (Token × List Char) :=
  try_name_lengths cs (min (cs.takeWhile Char.isAlpha).length 75)

/-- Fuelled scan for `token_pattern.finditer` (fuel = input length; every
step advances by at least one character). -/
def token_finditer_aux : Nat → List Char → List Token
  | 0, _ => []
  | _ + 1, [] => []
  | fuel + 1, c :: tl =>
    match match_token_at (c :: tl) with
    | some (t, rest) => t :: token_finditer_aux fuel rest
    | none => token_finditer_aux fuel tl

/-- Embeds `token_pattern.finditer` / `QueryParser.get_queries`. -/
def token_finditer (s : String) : List Token :=
  token_finditer_aux s.data.length s.data

/-! ## Filter group — `QueryParser.filter_pattern` (`queries.py` line 148)

`filters=([^&]+)(&|$)`: the first occurrence of `filters=` followed by a
non-empty run of non-`&` characters. -/

/-- Embeds `filter_pattern.search`, returning group 1. -/
def filter_pattern_search : List Char → Option (List Char)
  | [] => none
  | c :: tl =>
    if "filters=".data.isPrefixOf (c :: tl) then
      let run := ((c :: tl).drop 8).takeWhile (· ≠ '&')
      if run.isEmpty then filter_pattern_search tl else some run
    else filter_pattern_search tl

/-- The `filters_value` computed at `queries.py` lines 262-267: group 1
of the filter pattern, URL-decoded twice (`unquote(unquote_plus(...))`),
or the empty string when the pattern finds nothing. -/
def filters_value (query : String) : String :=
  match filter_pattern_search query.data with
  | none => ""
  | some g1 => String.mk (unquote_chars (unquote_plus_chars g1))

/-- Embeds `extract_content` on the raw query string (`queries.py` lines
245-320): tokenise `filters_value` and run the loop. -/
def extract_content_str (query : String) : Except Err (QueryData × List RawFilter) :=
  extract_content (token_finditer (filters_value query))

/-! ## latestBy extraction — `QueryParser.latest_by` (`queries.py` lines
150, 227-243)

`(&?latestBy=([a-z2356780]{2,75}))&?` with `re.I`.  On a match the whole
group 1 is removed from the query (Python `str.replace` removes every
occurrence), and the captured value must be a known metric or date
parameter, else `InvalidQueryParameter`. -/

/-- Membership in `[a-z2356780]` with `re.I`. -/
def is_latest_char (c : Char) : Bool :=
  c.isAlpha || c = '2' || c = '3' || c = '5' || c = '6' || c = '7' || c = '8' || c = '0'

/-- Embeds `latest_by.search`, returning `(group1, group2)`. -/
def latest_by_search : List Char → Option (String × String)
  | [] => none
  | c :: tl =>
    if c = '&' ∧ "latestBy=".data.isPrefixOf tl then
      let run := (tl.drop 9).takeWhile is_latest_char |>.take 75
      if run.length ≥ 2 then
        some (String.mk ('&' :: "latestBy=".data ++ run), String.mk run)
      else latest_by_search tl
    else if "latestBy=".data.isPrefixOf (c :: tl) then
      let run := ((c :: tl).drop 9).takeWhile is_latest_char |>.take 75
      if run.length ≥ 2 then
        some (String.mk ("latestBy=".data ++ run), String.mk run)
      else latest_by_search tl
    else latest_by_search tl

/-- Embeds `QueryParser.extract_latest_filter`: returns the `latestBy`
value (if any) and the query with group 1 removed. -/
def extract_latest_filter (query : String) : Except Err (Option String × String) :=
  match latest_by_search query.data with
  | none => .ok (none, query)
  | some (g1, param) =>
    let query := py_replace query g1 ""
    if ¬ DATE_PARAMS.contains param ∧ (DATA_TYPES.lookup param).isNone then
      .error (.api .invalidQueryParameter)
    else
      .ok (some param, query)

/-! ## Parser construction — `QueryParser.__init__` (`queries.py` lines
168-186)

Field initialisation order: `structure` and `formatter` are stored as
bound methods (not invoked), then `extract_latest_filter` runs (mutating
`_query`), then `extract_content`, then `get_page_number`. -/

/-- The state a successfully constructed `QueryParser` carries. -/
structure QueryParserState where
  only_latest_by : Option String
  query_data : QueryData
  raw_filters : List RawFilter
  page_number : Option Nat
  deriving DecidableEq, Repr

/-- Embeds `QueryParser.__init__` on the decoded query string. -/
def QueryParser_init (query : String) : Except Err QueryParserState :=
  match extract_latest_filter query with
  | .error e => .error e
  | .ok (only_latest_by, query) =>
    match extract_content_str query with
    | .error e => .error e
    | .ok (query_data, raw_filters) =>
      match get_page_number query with
      | .error e => .error e
      | .ok page_number =>
        .ok { only_latest_by := only_latest_by, query_data := query_data,
              raw_filters := raw_filters, page_number := page_number }

/-! ## Handler guards — `api_handler` (`api.py` lines 68-100)

`query` is `unquote_plus(urlparse(req.url).query)`; `page` and
`latestBy` are read separately from `req.params`.  Line 81 assigns
`formatter = tokens.formatter or formatter`: `tokens.formatter` holds the
*bound method* `extract_formatter` (it is never called in `__init__`),
which is truthy, so `formatter` becomes a non-string method object. -/

/-- The runtime value of the handler's `formatter` variable: a string, or
the bound-method object stored on the parser. -/
inductive FormatterVal where
  | strVal (s : String)
  | methodObj
  deriving DecidableEq, Repr

/-- Python `formatter in ["json", "xml"]` on a `FormatterVal`. -/
def formatter_in_json_xml : FormatterVal → Bool
  | .strVal s => s = "json" || s = "xml"
  | .methodObj => false

/-- Where `api_handler` ends up before any database work: it either
reaches the `get_data` call (line 94) or short-circuits into one of the
two `except` branches. -/
inductive HandlerOutcome where
  | proceeds (tokens : QueryParserState) (formatter : FormatterVal)
  | typed_error (e : ApiError) (status : Nat)
  | internal_error (status : Nat)
  deriving DecidableEq, Repr

/-- Embeds `api_handler` (`api.py` lines 79-100) up to the `get_data`
call, together with its `except` dispatch (lines 102-132): the returned
status of a typed error is the coerced `api_handler_error_status`, and
any other exception yields the generic 500. -/
def api_handler_pre (query : String) (page_param latest_param : Option String) :
    HandlerOutcome :=
  match QueryParser_init query with
  | .error (.api e) => .typed_error e (api_handler_error_status e)
  | .error (.py _) => .internal_error 500
  | .ok tokens =>
    let formatter := FormatterVal.methodObj   -- tokens.formatter (truthy) or 'json'
    if page_param.isSome ∧ latest_param.isSome then
      .typed_error .badPagination (api_handler_error_status .badPagination)
    else if latest_param.isSome ∧ ¬ formatter_in_json_xml formatter then
      .typed_error .invalidFormat (api_handler_error_status .invalidFormat)
    else if ¬ str_contains query "areaType" then
      .typed_error .missingFilter (api_handler_error_status .missingFilter)
    else
      .proceeds tokens formatter

/-! ## Structure formatting — `format_structure` (`structure.py` lines 120-154)

The input is `StructureType = Union[Dict[str, Any], List[str]]`
(`types.py`); dict values are strings or one-level nested string dicts
(the shape of `DEFAULT_STRUCTURE`; deeper nesting never occurs in the
repository).  `format_structure` serialises the input with
`json.dumps`, then rewrites it with `pattern.sub(formatter, ...)`, where
the `formatter` closure from `get_formatter` raises
`InvalidStructureParameter` for a `db_name` missing from `DATA_TYPES`.
A non-dict, non-list input (for example the *string* the live caller in
`queries.py` passes) raises `InvalidStructure`. -/

/-- A dict value inside a structure: a string or a nested flat string
dict. -/
inductive PyVal where
  | vstr (s : String)
  | vdict (entries : List (String × String))

/-- The Python value handed to `format_structure`. -/
inductive StructInput where
  | sdict (entries : List (String × PyVal))
  | slist (elems : List String)
  | sother

/-- JSON string quoting for `json.dumps` (escapes quote and backslash;
control characters do not occur in the embedded inputs). -/
def json_quote (s : String) : String :=
  "\"" ++ String.mk (s.data.flatMap fun c =>
    if c = '"' ∨ c = '\\' then ['\\', c] else [c]) ++ "\""

/-- Embeds `json.dumps` on a structure value (default separators:
`", "` between items, `": "` after keys). -/
def pyval_dumps : PyVal → String
  | .vstr s => json_quote s
  | .vdict entries =>
    "\x7b" ++ String.intercalate ", "
      (entries.map fun e => json_quote e.1 ++ ": " ++ json_quote e.2) ++ "\x7d"

/-- Embeds `struct_json = dumps(struct)` (`structure.py` line 140). -/
def struct_dumps : StructInput → String
  | .sdict entries =>
    "\x7b" ++ String.intercalate ", "
      (entries.map fun e => json_quote e.1 ++ ": " ++ pyval_dumps e.2) ++ "\x7d"
  | .slist elems =>
    "[" ++ String.intercalate ", " (elems.map json_quote) ++ "]"
  | .sother => ""

/-- Membership in the structure-label class `[a-z2860]` with `re.I`. -/
def is_struct_char (c : Char) : Bool :=
  c.isAlpha || c = '2' || c = '8' || c = '6' || c = '0'

/-- The `db_name` rewrite inside `format_struct` (`structure.py` lines
96-115): unknown metrics raise `InvalidStructureParameter`; datetime
metrics other than `date` become a `SUBSTRING`. -/
def structure_formatter_db_expr (db_name : String) : Except Err String :=
  match DATA_TYPES.lookup db_name with
  | none => .error (.api .invalidStructureParameter)
  | some dtype =>
    if dtype = .pdatetime ∧ db_name ≠ "date"
    then .ok ("SUBSTRING(c." ++ db_name ++ ", 0, 10)")
    else .ok ("c." ++ db_name)

/-- One attempted match of the JSON structure pattern
`"(new_name)":\s*"(db_name)"` anchored at the head. -/
def json_pattern_match_at (cs : List Char) : Option (String × String × List Char) :=
  match cs with
  | '"' :: tl =>
    let run1 := tl.takeWhile is_struct_char
    if 2 ≤ run1.length ∧ run1.length ≤ 40 then
      match tl.drop run1.length with
      | '"' :: ':' :: tl2 =>
        let ws := tl2.takeWhile (fun c => c = ' ' || c = '\t' || c = '\n' ||
          c = '\r' || c = '\x0b' || c = '\x0c')
        match tl2.drop ws.length with
        | '"' :: tl3 =>
          let run2 := tl3.takeWhile is_struct_char
          if 2 ≤ run2.length ∧ run2.length ≤ 40 then
            match tl3.drop run2.length with
            | '"' :: rest => some (String.mk run1, String.mk run2, rest)
            | _ => none
          else none
        | _ => none
      | _ => none
    else none
  | _ => none

/-- One attempted match of the Array structure pattern `"(db_name)"`
anchored at the head. -/
def array_pattern_match_at (cs : List Char) : Option (String × List Char) :=
  match cs with
  | '"' :: tl =>
    let run := tl.takeWhile is_struct_char
    if 2 ≤ run.length ∧ run.length ≤ 40 then
      match tl.drop run.length with
      | '"' :: rest => some (String.mk run, rest)
      | _ => none
    else none
  | _ => none

/-- Fuelled `pattern.sub` for the JSON pattern with the raising
formatter callback (template `'$new_name': ($db_expr ?? null)`). -/
def json_pattern_sub_aux : Nat → List Char → Except Err (List Char)
  | 0, cs => .ok cs
  | _ + 1, [] => .ok []
  | fuel + 1, c :: tl =>
    match json_pattern_match_at (c :: tl) with
    | some (new_name, db_name, rest) =>
      match structure_formatter_db_expr db_name with
      | .error e => .error e
      | .ok expr =>
        (json_pattern_sub_aux fuel rest).map
          (("\x27" ++ new_name ++ "\x27: (" ++ expr ++ " ?? null)").data ++ ·)
    | none => (json_pattern_sub_aux fuel tl).map (c :: ·)

/-- Fuelled `pattern.sub` for the Array pattern (template
`($db_expr ?? null)`). -/
def array_pattern_sub_aux : Nat → List Char → Except Err (List Char)
  | 0, cs => .ok cs
  | _ + 1, [] => .ok []
  | fuel + 1, c :: tl =>
    match array_pattern_match_at (c :: tl) with
    | some (db_name, rest) =>
      match structure_formatter_db_expr db_name with
      | .error e => .error e
      | .ok expr =>
        (array_pattern_sub_aux fuel rest).map
          (("(" ++ expr ++ " ?? null)").data ++ ·)
    | none => (array_pattern_sub_aux fuel tl).map (c :: ·)

/-- Embeds `format_structure` (`structure.py` lines 120-154). -/
def format_structure (struct : StructInput) : Except Err String :=
  match struct with
  | .sother => .error (.api .invalidStructure)
  | .sdict entries =>
    let dumped := struct_dumps (.sdict entries)
    (json_pattern_sub_aux dumped.data.length dumped.data).map String.mk
  | .slist elems =>
    let dumped := struct_dumps (.slist elems)
    (array_pattern_sub_aux dumped.data.length dumped.data).map String.mk

/-! ## Claim-level vocabulary

Non-recursive renderings used to *state* properties of the compiled SQL
fragment and the validity of a token, compared against the source
embeddings by the theorems below. -/

/-- The claim-shaped rendering of one predicate: the identifier mapping
(`areaName → LOWER(area_name)`, `areaType → area_type`,
`areaCode → area_code`, all others unchanged), the operator, and the
placeholder `$index`. -/
def render_predicate (name operator : String) (index : Nat) : String :=
  (if name = "areaName" then "LOWER(area_name)"
   else if name = "areaType" then "area_type"
   else if name = "areaCode" then "area_code"
   else name) ++ " " ++ operator ++ " " ++ "$" ++ toString index

/-- The claim-shaped rendering of a connector: `;` is AND, `|` is OR,
anything else contributes nothing. -/
def render_connector (connector : String) : String :=
  if connector = ";" then " AND "
  else if connector = "|" then " OR "
  else ""

/-- The claim-shaped compiled fragment for a token list: `AND ` followed
by each predicate numbered consecutively from `$2`, joined by its
connector rendering. -/
def claim_fragment (tokens : List Token) : String :=
  "AND " ++ String.join ((tokens.enumFrom 2).map fun p =>
    render_predicate p.2.name p.2.operator p.1 ++ render_connector p.2.connector)

/-- A token every stage of the `extract_content` loop accepts: the
allow-list check passes, the value converts, and the transformer's
`value_fn` succeeds on the converted value. -/
def token_valid (t : Token) : Bool :=
  (match RESTRICTED_PARAMETER_VALUES.lookup t.name with
   | some allowed => allowed.contains (py_lower t.value)
   | none => true) &&
  (match convert_value_type t.name t.operator t.value with
   | .ok v =>
     match STRING_TRANSFORMATION_value_fn t.name v with
     | .ok _ => true
     | .error _ => false
   | .error _ => false)

/-- Is an `Except` an `ok`? -/
def except_is_ok (r : Except Err String) : Bool :=
  match r with
  | .ok _ => true
  | .error _ => false

/-! # Theorems -/

/-- Lowering after selecting the partition class commutes with the
selection (`"other"` is already lower case). -/
theorem py_lower_partition_if (b : Bool) (s : String) :
    py_lower (if b then s else "other") = (if b then py_lower s else "other") := by
  cases b
  · simpa using (by decide : py_lower "other" = "other")
  · simp

/-- C1 (counterexample): the claim says the HTTP status of a response
failing with `InvalidQueryParameter` is its canonical 422; the handler
(`api.py` line 103) returns 400 instead. -/
theorem claim1_counterexample :
    api_handler_error_status .invalidQueryParameter = 400 ∧
    ApiError.code .invalidQueryParameter = 422 ∧ (400 : Nat) ≠ 422 := by
  decide

/-- C1 (amended): each error kind's canonical `code` attribute is as the
taxonomy lists (422 / 404 / 406 / 417 / 413 / 413 / 412 / 401), but the
handler coerces every canonical code in `[400, 500)` to HTTP 400, so the
HTTP status of the response is 400 for all eight listed kinds. -/
theorem claim1_error_status :
    (∀ e : ApiError, 400 ≤ e.code → e.code < 500 → api_handler_error_status e = 400) ∧
    (ApiError.code .invalidQueryParameter = 422 ∧
      api_handler_error_status .invalidQueryParameter = 400) ∧
    (ApiError.code .invalidStructureParameter = 404 ∧
      api_handler_error_status .invalidStructureParameter = 400) ∧
    (ApiError.code .incorrectQueryValueType = 406 ∧
      api_handler_error_status .incorrectQueryValueType = 400) ∧
    (ApiError.code .valueNotAcceptable = 417 ∧
      api_handler_error_status .valueNotAcceptable = 400) ∧
    (ApiError.code .exceedsMaxParameters = 413 ∧
      api_handler_error_status .exceedsMaxParameters = 400) ∧
    (ApiError.code .structureTooLarge = 413 ∧
      api_handler_error_status .structureTooLarge = 400) ∧
    (ApiError.code .invalidQuery = 412 ∧
      api_handler_error_status .invalidQuery = 400) ∧
    (ApiError.code .unauthorisedRequest = 401 ∧
      api_handler_error_status .unauthorisedRequest = 400) := by
  refine ⟨fun e h1 h2 => ?_, by decide, by decide, by decide, by decide,
    by decide, by decide, by decide, by decide⟩
  simp only [api_handler_error_status, if_pos (And.intro h1 h2)]

/-- C1 (witness): the coercion theorem applied to
`InvalidQueryParameter`. -/
theorem claim1_error_status_witness :
    400 ≤ ApiError.code .invalidQueryParameter ∧
    ApiError.code .invalidQueryParameter < 500 ∧
    api_handler_error_status .invalidQueryParameter = 400 :=
  ⟨by decide, by decide,
    claim1_error_status.1 .invalidQueryParameter (by decide) (by decide)⟩

/-- C2 (counterexample): for a structure consisting of the four identity
columns plus one metric, the code computes `LIMIT = 2500 × 5 = 12500`,
while the claim's `nMetrics = len(structure) − identityColumnCount`
formula would give `2500 × 1 = 2500`. -/
theorem claim2_counterexample :
    data_query_limit (get_data_n_metrics (ResponseStructure.list
      ["areaCode", "areaType", "areaName", "date", "newCasesByPublishDate"])) = 12500 ∧
    MAX_ITEMS_PER_RESPONSE * claim_n_metrics (ResponseStructure.list
      ["areaCode", "areaType", "areaName", "date", "newCasesByPublishDate"]) = 2500 ∧
    (12500 : Nat) ≠ 2500 := by
  decide

/-- C2 (amended): in default (non-latestBy) GET mode the emitted SQL is
the data template with `LIMIT = MAX_ITEMS_PER_RESPONSE × nMetrics` and
`OFFSET = LIMIT × (page − 1)`, page defaulting to 1, where `nMetrics` is
the full length of the requested structure (identity columns are not
subtracted). -/
theorem claim2_limit_offset (environment partition filters : String)
    (struct : ResponseStructure) (page_token : Option Nat) :
    get_query environment "GET" none partition filters
        (get_data_page_number page_token) (get_data_n_metrics struct) =
      DBQueries_data_query partition
        (if environment ≠ "DEVELOPMENT"
         then filters ++ " AND mr.released IS TRUE" else filters)
        (data_query_limit (get_data_n_metrics struct))
        (data_query_offset (get_data_n_metrics struct) (get_data_page_number page_token)) ∧
    data_query_limit (get_data_n_metrics struct) =
      MAX_ITEMS_PER_RESPONSE * (get_data_metrics struct).length ∧
    data_query_offset (get_data_n_metrics struct) (get_data_page_number page_token) =
      (data_query_limit (get_data_n_metrics struct) : Int) *
        (get_data_page_number page_token - 1) ∧
    (page_token = none → get_data_page_number page_token = 1) := by
  refine ⟨rfl, rfl, ?_, ?_⟩
  · simp [data_query_offset, data_query_limit]
  · rintro rfl; rfl

/-- C2 (witness): the planner arithmetic at a concrete two-entry
structure with an omitted page token. -/
theorem claim2_limit_offset_witness :
    get_data_page_number none = (1 : Int) ∧
    data_query_limit (get_data_n_metrics
      (ResponseStructure.list ["date", "newCasesByPublishDate"])) = 5000 := by
  have h := claim2_limit_offset "PRODUCTION" "2023_5_25_other" "AND area_type = $2"
    (ResponseStructure.list ["date", "newCasesByPublishDate"]) none
  exact ⟨h.2.2.2 rfl, by rw [h.2.1]; decide⟩

/-- C4: the partition id is `YYYY_M_D_<class>` built from the parsed
release date (year `%Y`-padded, month and day unpadded `Nat.repr`) and
the lower-cased area type, collapsed to `other` outside
{utla, ltla, nhstrust, msoa}; evaluation is deterministic. -/
theorem claim4_partition_id (area_type timestamp : String) (y m d : Nat)
    (h : fromisoformat_ymd (timestamp.take 26) = some (y, m, d)) :
    get_partition_id area_type timestamp =
      .ok (format_year y ++ "_" ++ toString m ++ "_" ++ toString d ++ "_" ++
        (if single_partition_types.contains (py_lower area_type)
         then py_lower area_type else "other")) ∧
    get_partition_id area_type timestamp = get_partition_id area_type timestamp := by
  refine ⟨?_, rfl⟩
  have hser : get_partition_id area_type timestamp =
      .ok (format_year y ++ "_" ++ toString m ++ "_" ++ toString d ++ "_" ++
        py_lower (if single_partition_types.contains (py_lower area_type)
                  then area_type else "other")) := by
    unfold get_partition_id
    rw [h]
  rw [hser, py_lower_partition_if]

set_option maxRecDepth 8192 in
/-- C4 (witness): the partition id for area type `nation` at the release
timestamp `2023-05-25T16:48:09.9161315Z` is `2023_5_25_other` (month and
day unpadded). -/
theorem claim4_partition_id_witness :
    fromisoformat_ymd (("2023-05-25T16:48:09.9161315Z" : String).take 26) =
      some (2023, 5, 25) ∧
    get_partition_id "nation" "2023-05-25T16:48:09.9161315Z" = .ok "2023_5_25_other" := by
  have h := (claim4_partition_id "nation" "2023-05-25T16:48:09.9161315Z" 2023 5 25
    (by decide)).1
  exact ⟨by decide, by rw [h]; rfl⟩

/-- C9: the generic `except Exception` branch of `api_handler` produces a
fixed body with status 500 that does not depend on the caught exception:
two runs failing with different internal exceptions give identical
responses. -/
theorem claim9_generic_500 (message1 message2 : String) :
    api_handler_unexpected message1 = api_handler_unexpected message2 ∧
    (api_handler_unexpected message1).status_code = 500 :=
  ⟨rfl, rfl⟩

/-- C10: whenever the query contains `page=`, the extractor reads at most
the first three digits that follow (`\d{,3}` in `PAGINATION_PATTERN`);
with no digit it fails on `int('')`. -/
theorem claim10_page_digits (q : String) (i : Nat)
    (h : substr_find q.data "page=".data = some i) :
    ((q.data.drop (i + 5)).takeWhile Char.isDigit = [] →
      get_page_number q = .error (.py .valueError)) ∧
    ((q.data.drop (i + 5)).takeWhile Char.isDigit ≠ [] →
      get_page_number q = .ok (some (string_to_nat
        (String.mk (((q.data.drop (i + 5)).takeWhile Char.isDigit).take 3))))) := by
  constructor
  · intro hrun
    simp [get_page_number, pagination_pattern_search, h, hrun]
  · intro hrun
    have htake : ((q.data.drop (i + 5)).takeWhile Char.isDigit).take 3 ≠ [] := by
      simpa [List.take_eq_nil_iff] using hrun
    have hne : String.mk (((q.data.drop (i + 5)).takeWhile Char.isDigit).take 3) ≠ "" := by
      intro heq
      exact htake (by simpa using congrArg String.data heq)
    simp [get_page_number, pagination_pattern_search, h, hne]

/-- C10 (witness): `page=1000` yields page number 100 (the first three
digits), not 1000. -/
theorem claim10_page_digits_witness :
    substr_find ("filters=areaType=nation&page=1000" : String).data "page=".data =
      some 24 ∧
    get_page_number "filters=areaType=nation&page=1000" = .ok (some 100) := by
  have h := (claim10_page_digits "filters=areaType=nation&page=1000" 24 (by decide)).2
    (by decide)
  exact ⟨by decide, by rw [h]; rfl⟩

/-- Ceiling division on naturals as a rational ceiling:
`(c + d - 1) / d = ⌈c / d⌉` for positive `d`. -/
theorem nat_ceil_div_eq (c d : Nat) (hd : 0 < d) :
    (((c + d - 1) / d : Nat) : ℤ) = ⌈(c : ℚ) / (d : ℚ)⌉ := by
  have hdq : (0 : ℚ) < d := by exact_mod_cast hd
  have hdm := Nat.div_add_mod (c + d - 1) d
  have hmod : (c + d - 1) % d < d := Nat.mod_lt _ hd
  set k := (c + d - 1) / d with hk
  have hA : c ≤ k * d := by rw [mul_comm]; omega
  have hB : k * d < c + d := by rw [mul_comm]; omega
  rw [eq_comm, Int.ceil_eq_iff]
  constructor
  · have hBq : (k : ℚ) * d < c + d := by exact_mod_cast hB
    push_cast
    rw [sub_lt_iff_lt_add, div_add' _ _ _ (ne_of_gt hdq), lt_div_iff₀ hdq]
    nlinarith [hBq]
  · rw [div_le_iff₀ hdq]
    exact_mod_cast hA

/-- An `if` producing an optional link is `none` exactly when its
condition fails. -/
theorem ite_some_eq_none_iff {α : Type} (c : Prop) [Decidable c] (x : α) :
    (if c then some x else none) = none ↔ ¬c := by
  split <;> simp_all

/-- C5: in the JSON envelope, `totalPages` is the exact ceiling of
`count / (MAX_ITEMS_PER_RESPONSE × nMetrics)`; `pagination.next` is null
exactly when the page number is at least `totalPages` and
`pagination.previous` is null exactly when it is at most 1; when the
`latestBy` request parameter is present the `pagination` block is
omitted and `requestPayload` carries `latestBy` instead of `page`. -/
theorem claim5_envelope (df : List Row) (request_url : String)
    (lb_param : Option String) (response_type : String) (count : Nat)
    (page_number : Int) (n_metrics : Nat) (struct : ResponseStructure)
    (raw_filters : List RawFilter)
    (hfmt : response_type ≠ "csv") (hn : 0 < n_metrics) :
    ((format_response_total_pages count n_metrics : Int) =
      ⌈(count : ℚ) / ((MAX_ITEMS_PER_RESPONSE * n_metrics : Nat) : ℚ)⌉) ∧
    (lb_param = none →
      ∃ p pg, format_response df request_url lb_param response_type count
          page_number n_metrics struct raw_filters = .json p ∧
        p.pagination = some pg ∧
        (pg.next = none ↔ (format_response_total_pages count n_metrics : Int) ≤ page_number) ∧
        (pg.previous = none ↔ page_number ≤ 1) ∧
        p.requestPayload.page = some page_number ∧
        p.requestPayload.latestBy = none) ∧
    (∀ lb, lb_param = some lb →
      ∃ p, format_response df request_url lb_param response_type count
          page_number n_metrics struct raw_filters = .json p ∧
        p.pagination = none ∧
        p.requestPayload.latestBy = some lb ∧
        p.requestPayload.page = none) := by
  refine ⟨?_, ?_, ?_⟩
  · have hd : 0 < MAX_ITEMS_PER_RESPONSE * n_metrics :=
      Nat.mul_pos (by decide) hn
    exact nat_ceil_div_eq count (MAX_ITEMS_PER_RESPONSE * n_metrics) hd
  · rintro rfl
    simp only [format_response, if_neg hfmt]
    exact ⟨_, _, rfl, rfl,
      by rw [ite_some_eq_none_iff]; omega,
      by rw [ite_some_eq_none_iff]; omega, rfl, rfl⟩
  · rintro lb rfl
    simp only [format_response, if_neg hfmt]
    exact ⟨_, rfl, rfl, rfl, rfl⟩

/-- C5 (witness): the envelope theorem at `count = 10000`,
`n_metrics = 2`, a non-latestBy request on page 2. -/
theorem claim5_envelope_witness :
    ("json" : String) ≠ "csv" ∧ (0 : Nat) < 2 ∧
    ((format_response_total_pages 10000 2 : Int) =
      ⌈(10000 : ℚ) / ((MAX_ITEMS_PER_RESPONSE * 2 : Nat) : ℚ)⌉) ∧
    format_response_total_pages 10000 2 = 2 :=
  ⟨by decide, by decide,
    (claim5_envelope [] "https://api.coronavirus.data.gov.uk/v1/data?filters=areaType=nation"
      none "json" 10000 2 2 (.list ["date", "newCasesByPublishDate"]) []
      (by decide) (by decide)).1,
    by decide⟩

/-- Appending strings appends their character data (definitional). -/
theorem string_data_append (s t : String) : (s ++ t).data = s.data ++ t.data := rfl

/-- Joining a non-empty list of strings peels off the head. -/
theorem string_join_cons (s : String) (l : List String) :
    String.join (s :: l) = s ++ String.join l := by
  apply String.ext
  simp [String.join_eq]

/-- The transformer's `param_fn` agrees with the claim's identifier
mapping: the three `replace`-based entries rewrite their own exact key
and every other name (including `date`) passes through unchanged. -/
theorem STRING_TRANSFORMATION_param_fn_eq (name : String) :
    STRING_TRANSFORMATION_param_fn name =
      (if name = "areaName" then "LOWER(area_name)"
       else if name = "areaType" then "area_type"
       else if name = "areaCode" then "area_code"
       else name) := by
  by_cases h1 : name = "areaName"
  · subst h1; decide
  by_cases h2 : name = "areaType"
  · subst h2; decide
  by_cases h3 : name = "date"
  · subst h3; decide
  by_cases h4 : name = "areaCode"
  · subst h4; decide
  simp [STRING_TRANSFORMATION_param_fn, h1, h2, h3, h4]

/-- A successful `extract_content` step extends the SQL fragment by
exactly the claim-shaped predicate rendering and connector. -/
theorem extract_content_step_query (t : Token) (index : Nat) (query : String)
    (args : List QueryValue) (raws : List RawFilter) (at_ : Option QueryValue)
    (q' : String) (a' : List QueryValue) (r' : List RawFilter) (at2 : Option QueryValue)
    (h : extract_content_step t index query args raws at_ = .ok (q', a', r', at2)) :
    q' = query ++ (render_predicate t.name t.operator index ++
      render_connector t.connector) := by
  have hr : RESTRICTED_PARAMETER_VALUES.lookup t.name = none := rfl
  unfold extract_content_step at h
  rw [hr] at h
  dsimp only at h
  cases hc : convert_value_type t.name t.operator t.value with
  | error e => rw [hc] at h; simp at h
  | ok v =>
    rw [hc] at h
    dsimp only at h
    cases hv : STRING_TRANSFORMATION_value_fn t.name v with
    | error e => rw [hv] at h; simp at h
    | ok argval =>
      rw [hv] at h
      simp only [Except.ok.injEq, Prod.mk.injEq] at h
      obtain ⟨rfl, rfl, rfl, rfl⟩ := h.symm
      rw [STRING_TRANSFORMATION_param_fn_eq]
      unfold render_predicate render_connector STRING_TRANSFORMATION_input_argument
      by_cases hcon1 : t.connector = ";"
      · rw [if_pos hcon1, if_pos hcon1]
        apply String.ext
        simp [string_data_append, List.append_assoc]
      rw [if_neg hcon1, if_neg hcon1]
      by_cases hcon2 : t.connector = "|"
      · rw [if_pos hcon2, if_pos hcon2]
        apply String.ext
        simp [string_data_append, List.append_assoc]
      rw [if_neg hcon2, if_neg hcon2]
      apply String.ext
      simp [string_data_append, List.append_assoc]

/-- A successful `extract_content` loop run produces the seed fragment
followed by the claim-shaped rendering of its tokens, with consecutive
placeholder numbering from the starting index. -/
theorem extract_content_loop_query :
    ∀ (tokens : List Token) (index : Nat) (query : String)
      (args : List QueryValue) (raws : List RawFilter) (at_ : Option QueryValue)
      (res : String × List QueryValue × List RawFilter × Option QueryValue),
      extract_content_loop tokens index query args raws at_ = .ok res →
      res.1 = query ++ String.join ((tokens.enumFrom index).map fun p =>
        render_predicate p.2.name p.2.operator p.1 ++ render_connector p.2.connector) := by
  intro tokens
  induction tokens with
  | nil =>
    intro index query args raws at_ res h
    simp only [extract_content_loop, Except.ok.injEq] at h
    rw [← h]
    apply String.ext
    simp [string_data_append, String.join]
  | cons t rest ih =>
    intro index query args raws at_ res h
    unfold extract_content_loop at h
    cases hstep : extract_content_step t index query args raws at_ with
    | error e => rw [hstep] at h; simp at h
    | ok tup =>
      rw [hstep] at h
      obtain ⟨q', a', r', at2⟩ := tup
      have hq := extract_content_step_query t index query args raws at_ q' a' r' at2 hstep
      have hrest := ih (index + 1) q' a' r' at2 res h
      rw [hrest, hq,
        show ((t :: rest).enumFrom index) = (index, t) :: rest.enumFrom (index + 1) from rfl,
        List.map_cons, string_join_cons]
      apply String.ext
      simp [string_data_append, List.append_assoc]

/-- C3 (counterexample): for the filter string from the repository's own
unit test, the compiled fragment is `AND area_type = $2 AND
LOWER(area_name) = $3` — it does not begin with the space the claim's
` AND <predicate>` shape requires. -/
theorem claim3_counterexample :
    extract_content_str "filters=areaType=nation;areaName=England" =
      .ok ({ arguments := [.vstr "nation", .vstr "england"],
             query := "AND area_type = $2 AND LOWER(area_name) = $3",
             area_type := some (.vstr "nation") },
           [{ identifier := "areaType", operator := "=", value := "nation" },
            { identifier := "areaName", operator := "=", value := "England" }]) ∧
    (" AND ".data.isPrefixOf
      ("AND area_type = $2 AND LOWER(area_name) = $3" : String).data) = false :=
  ⟨rfl, rfl⟩

/-- C3 (amended): for every filter string the parser accepts, the emitted
fragment is `AND <predicate> [AND|OR <predicate>]*` (no leading space),
with placeholders numbered consecutively from `$2` in token order,
`areaName` rendered `LOWER(area_name)`, `areaType` rendered `area_type`,
`areaCode` rendered `area_code`, every other identifier unchanged, `;`
joined as AND and `|` joined as OR. -/
theorem claim3_fragment (q : String) (qd : QueryData) (raws : List RawFilter)
    (h : extract_content_str q = .ok (qd, raws)) :
    qd.query = claim_fragment (token_finditer (filters_value q)) ∧
    qd.query.data.take 4 = "AND ".data := by
  unfold extract_content_str extract_content at h
  cases hloop : extract_content_loop (token_finditer (filters_value q)) 2 "AND " [] [] none with
  | error e => rw [hloop] at h; simp at h
  | ok tup =>
    rw [hloop] at h
    obtain ⟨q', a', r', at2⟩ := tup
    dsimp only at h
    by_cases h5 : a'.length > MAX_QUERY_PARAMS
    · rw [if_pos h5] at h; simp at h
    rw [if_neg h5] at h
    by_cases h0 : a'.length = 0
    · rw [if_pos h0] at h; simp at h
    rw [if_neg h0] at h
    simp only [Except.ok.injEq, Prod.mk.injEq] at h
    obtain ⟨hqd, -⟩ := h
    have hq := extract_content_loop_query _ 2 "AND " [] [] none _ hloop
    dsimp only at hq
    have hqq : qd.query = q' := by rw [← hqd]
    constructor
    · rw [hqq]
      exact hq
    · rw [hqq, hq, string_data_append,
        show (4 : Nat) = "AND ".data.length from rfl, List.take_left]

/-- C3 (witness): the fragment theorem applied to the repository's own
test filter string. -/
theorem claim3_fragment_witness :
    extract_content_str "filters=areaType=nation;areaName=England" =
      .ok ({ arguments := [.vstr "nation", .vstr "england"],
             query := "AND area_type = $2 AND LOWER(area_name) = $3",
             area_type := some (.vstr "nation") },
           [{ identifier := "areaType", operator := "=", value := "nation" },
            { identifier := "areaName", operator := "=", value := "England" }]) ∧
    ("AND area_type = $2 AND LOWER(area_name) = $3" : String) =
      claim_fragment (token_finditer (filters_value
        "filters=areaType=nation;areaName=England")) := by
  refine ⟨rfl, ?_⟩
  have h := (claim3_fragment "filters=areaType=nation;areaName=England"
    { arguments := [.vstr "nation", .vstr "england"],
      query := "AND area_type = $2 AND LOWER(area_name) = $3",
      area_type := some (.vstr "nation") }
    [{ identifier := "areaType", operator := "=", value := "nation" },
     { identifier := "areaName", operator := "=", value := "England" }] rfl).1
  exact h

/-- A valid token makes `extract_content_step` succeed, appending exactly
one argument. -/
theorem extract_content_step_ok_of_valid (t : Token) (hv : token_valid t = true)
    (index : Nat) (query : String) (args : List QueryValue)
    (raws : List RawFilter) (at_ : Option QueryValue) :
    ∃ q' argval at2, extract_content_step t index query args raws at_ =
      .ok (q', args ++ [argval],
        raws ++ [{ identifier := t.name, operator := t.operator, value := t.value }], at2) := by
  have hr : RESTRICTED_PARAMETER_VALUES.lookup t.name = none := rfl
  unfold token_valid at hv
  rw [hr] at hv
  dsimp only at hv
  cases hc : convert_value_type t.name t.operator t.value with
  | error e => rw [hc] at hv; simp at hv
  | ok v =>
    rw [hc] at hv
    dsimp only at hv
    cases hval : STRING_TRANSFORMATION_value_fn t.name v with
    | error e => rw [hval] at hv; simp at hv
    | ok argval =>
      refine ⟨(if t.connector = ";" then
          query ++ STRING_TRANSFORMATION_param_fn t.name ++ " " ++ t.operator ++ " " ++
            STRING_TRANSFORMATION_input_argument t.name ("$" ++ toString index) ++ " AND "
        else if t.connector = "|" then
          query ++ STRING_TRANSFORMATION_param_fn t.name ++ " " ++ t.operator ++ " " ++
            STRING_TRANSFORMATION_input_argument t.name ("$" ++ toString index) ++ " OR "
        else
          query ++ STRING_TRANSFORMATION_param_fn t.name ++ " " ++ t.operator ++ " " ++
            STRING_TRANSFORMATION_input_argument t.name ("$" ++ toString index)),
        argval, (if t.name = "areaType" then some v else at_), ?_⟩
      simp [extract_content_step, hr, hc, hval]

/-- A list of valid tokens makes the `extract_content` loop succeed,
producing one argument per token. -/
theorem extract_content_loop_ok_of_valid :
    ∀ (tokens : List Token) (index : Nat) (query : String)
      (args : List QueryValue) (raws : List RawFilter) (at_ : Option QueryValue),
      (∀ t ∈ tokens, token_valid t = true) →
      ∃ q' a' r' at2, extract_content_loop tokens index query args raws at_ =
        .ok (q', a', r', at2) ∧ a'.length = args.length + tokens.length := by
  intro tokens
  induction tokens with
  | nil =>
    intro index query args raws at_ _
    exact ⟨query, args, raws, at_, rfl, by simp⟩
  | cons t rest ih =>
    intro index query args raws at_ hall
    obtain ⟨q', argval, at2, hstep⟩ :=
      extract_content_step_ok_of_valid t (hall t (by simp)) index query args raws at_
    obtain ⟨q2, a2, r2, at3, hloop, hlen⟩ := ih (index + 1) q'
      (args ++ [argval])
      (raws ++ [{ identifier := t.name, operator := t.operator, value := t.value }])
      at2 (fun u hu => hall u (by simp [hu]))
    refine ⟨q2, a2, r2, at3, ?_, ?_⟩
    · unfold extract_content_loop
      rw [hstep]
      exact hloop
    · rw [hlen]
      simp
      omega

/-- C6: with every predicate individually valid, the filter parser
accepts between one and five predicates, raises `ExceedsMaxParameters`
as soon as the parsed predicates exceed `MAX_QUERY_PARAMS = 5`, and
raises `InvalidQuery` when zero predicates parse. -/
theorem claim6_predicate_count (q : String)
    (hvalid : ∀ t ∈ token_finditer (filters_value q), token_valid t = true) :
    ((token_finditer (filters_value q)).length > 5 →
      extract_content_str q = .error (.api .exceedsMaxParameters)) ∧
    ((token_finditer (filters_value q)).length = 0 →
      extract_content_str q = .error (.api .invalidQuery)) ∧
    (1 ≤ (token_finditer (filters_value q)).length ∧
        (token_finditer (filters_value q)).length ≤ 5 →
      ∃ result, extract_content_str q = .ok result) := by
  obtain ⟨q', a', r', at2, hloop, hlen⟩ :=
    extract_content_loop_ok_of_valid (token_finditer (filters_value q))
      2 "AND " [] [] none hvalid
  simp only [List.length_nil, Nat.zero_add] at hlen
  unfold extract_content_str extract_content
  rw [hloop]
  dsimp only
  refine ⟨?_, ?_, ?_⟩
  · intro hgt
    rw [if_pos (by rw [hlen]; exact hgt)]
  · intro hzero
    rw [if_neg (by rw [hlen]; simp only [MAX_QUERY_PARAMS]; omega),
      if_pos (by rw [hlen]; exact hzero)]
  · intro hrange
    rw [if_neg (by rw [hlen]; simp only [MAX_QUERY_PARAMS]; omega),
      if_neg (by rw [hlen]; omega)]
    exact ⟨_, rfl⟩

/-- C6 (witness): a query with exactly five valid predicates is
accepted; the same query with a sixth predicate raises
`ExceedsMaxParameters`. -/
theorem claim6_predicate_count_witness :
    (token_finditer (filters_value
      "filters=areaType=nation;areaName=England;areaName=London;areaName=Leeds;areaName=York")).length = 5 ∧
    (∃ result, extract_content_str
      "filters=areaType=nation;areaName=England;areaName=London;areaName=Leeds;areaName=York" =
        .ok result) ∧
    extract_content_str
      "filters=areaType=nation;areaName=England;areaName=London;areaName=Leeds;areaName=York;areaName=Bath" =
        .error (.api .exceedsMaxParameters) := by
  refine ⟨by decide, ?_, ?_⟩
  · exact (claim6_predicate_count _ (by decide)).2.2 ⟨by decide, by decide⟩
  · exact (claim6_predicate_count _ (by decide)).1 (by decide)

/-- C8 (counterexample): the guard tests the substring `areaType` on the
whole decoded query string, not on the filter predicates.  For
`filters=areaName=England&structure=["areaType","date"]` the parsed
filter predicates contain no `areaType` predicate, yet the handler
passes every guard and proceeds to the database call instead of
rejecting with `MissingFilter`. -/
theorem claim8_counterexample :
    api_handler_pre "filters=areaName=England&structure=[\"areaType\",\"date\"]"
        none none =
      .proceeds
        { only_latest_by := none
        , query_data :=
            { arguments := [.vstr "england"]
            , query := "AND LOWER(area_name) = $2"
            , area_type := none }
        , raw_filters := [{ identifier := "areaName", operator := "=", value := "England" }]
        , page_number := none }
        .methodObj ∧
    (([{ identifier := "areaName", operator := "=", value := "England" }] :
        List RawFilter).all (fun rf => rf.identifier != "areaType")) = true ∧
    api_handler_pre "filters=areaName=England&structure=[\"areaType\",\"date\"]"
        none none ≠
      .typed_error .missingFilter 400 := by
  exact ⟨rfl, by decide, by decide⟩

/-- C8 (amended): a request whose *entire decoded query string* lacks the
substring `areaType` — and that parses successfully with no `latestBy`
parameter — is rejected with `MissingFilter` (HTTP 400) by the guard
that runs before the `get_data` call; when the substring occurs anywhere
in the query (even outside the filters), the guard does not fire. -/
theorem claim8_missing_filter (query : String) (page_param : Option String)
    (st : QueryParserState)
    (hinit : QueryParser_init query = .ok st)
    (hsub : str_contains query "areaType" = false) :
    api_handler_pre query page_param none = .typed_error .missingFilter 400 := by
  unfold api_handler_pre
  rw [hinit]
  simp [hsub]
  decide

/-- C8 (witness): the spec's own scenario `filters=areaName=England` is
rejected with `MissingFilter` and status 400. -/
theorem claim8_missing_filter_witness :
    QueryParser_init "filters=areaName=England" =
      .ok { only_latest_by := none
          , query_data :=
              { arguments := [.vstr "england"]
              , query := "AND LOWER(area_name) = $2"
              , area_type := none }
          , raw_filters := [{ identifier := "areaName", operator := "=", value := "England" }]
          , page_number := none } ∧
    str_contains "filters=areaName=England" "areaType" = false ∧
    api_handler_pre "filters=areaName=England" none none =
      .typed_error .missingFilter 400 :=
  ⟨rfl, rfl, claim8_missing_filter "filters=areaName=England" none _ rfl rfl⟩

/-- The structure formatter's only error is `InvalidStructureParameter`
(an unknown metric). -/
theorem structure_formatter_db_expr_error (db : String) (e : Err)
    (h : structure_formatter_db_expr db = .error e) :
    e = .api .invalidStructureParameter := by
  unfold structure_formatter_db_expr at h
  cases hl : DATA_TYPES.lookup db with
  | none =>
    rw [hl] at h
    simp only [Except.error.injEq] at h
    exact h.symm
  | some dt =>
    rw [hl] at h
    dsimp only at h
    by_cases hd : dt = .pdatetime ∧ db ≠ "date"
    · rw [if_pos hd] at h; simp at h
    · rw [if_neg hd] at h; simp at h

/-- Every error of the JSON-structure substitution is
`InvalidStructureParameter`. -/
theorem json_pattern_sub_aux_error :
    ∀ (fuel : Nat) (cs : List Char) (e : Err),
      json_pattern_sub_aux fuel cs = .error e →
      e = .api .invalidStructureParameter := by
  intro fuel
  induction fuel with
  | zero => intro cs e h; simp [json_pattern_sub_aux] at h
  | succ fuel ih =>
    intro cs e h
    cases cs with
    | nil => simp [json_pattern_sub_aux] at h
    | cons c tl =>
      unfold json_pattern_sub_aux at h
      cases hm : json_pattern_match_at (c :: tl) with
      | some tri =>
        rw [hm] at h
        obtain ⟨nn, db, rest⟩ := tri
        dsimp only at h
        cases hdb : structure_formatter_db_expr db with
        | error e2 =>
          rw [hdb] at h
          simp only [Except.error.injEq] at h
          rw [← h]
          exact structure_formatter_db_expr_error db e2 hdb
        | ok expr =>
          rw [hdb] at h
          dsimp only at h
          cases hrec : json_pattern_sub_aux fuel rest with
          | error e3 =>
            rw [hrec] at h
            simp only [Except.map, Except.error.injEq] at h
            rw [← h]
            exact ih rest e3 hrec
          | ok l => rw [hrec] at h; simp [Except.map] at h
      | none =>
        rw [hm] at h
        cases hrec : json_pattern_sub_aux fuel tl with
        | error e3 =>
          rw [hrec] at h
          simp only [Except.map, Except.error.injEq] at h
          rw [← h]
          exact ih tl e3 hrec
        | ok l => rw [hrec] at h; simp [Except.map] at h

/-- Every error of the Array-structure substitution is
`InvalidStructureParameter`. -/
theorem array_pattern_sub_aux_error :
    ∀ (fuel : Nat) (cs : List Char) (e : Err),
      array_pattern_sub_aux fuel cs = .error e →
      e = .api .invalidStructureParameter := by
  intro fuel
  induction fuel with
  | zero => intro cs e h; simp [array_pattern_sub_aux] at h
  | succ fuel ih =>
    intro cs e h
    cases cs with
    | nil => simp [array_pattern_sub_aux] at h
    | cons c tl =>
      unfold array_pattern_sub_aux at h
      cases hm : array_pattern_match_at (c :: tl) with
      | some pr =>
        rw [hm] at h
        obtain ⟨db, rest⟩ := pr
        dsimp only at h
        cases hdb : structure_formatter_db_expr db with
        | error e2 =>
          rw [hdb] at h
          simp only [Except.error.injEq] at h
          rw [← h]
          exact structure_formatter_db_expr_error db e2 hdb
        | ok expr =>
          rw [hdb] at h
          dsimp only at h
          cases hrec : array_pattern_sub_aux fuel rest with
          | error e3 =>
            rw [hrec] at h
            simp only [Except.map, Except.error.injEq] at h
            rw [← h]
            exact ih rest e3 hrec
          | ok l => rw [hrec] at h; simp [Except.map] at h
      | none =>
        rw [hm] at h
        cases hrec : array_pattern_sub_aux fuel tl with
        | error e3 =>
          rw [hrec] at h
          simp only [Except.map, Except.error.injEq] at h
          rw [← h]
          exact ih tl e3 hrec
        | ok l => rw [hrec] at h; simp [Except.map] at h

set_option maxRecDepth 100000 in
/-- C7: structure validation never raises `StructureTooLarge` — the
exception class and `MAX_STRUCTURE_LENGTH = 8` exist but are unused —
and a client-supplied mapping structure with nine entries is formatted
successfully. -/
theorem claim7_no_size_check :
    except_is_ok (format_structure (.sdict
      [("a2", .vstr "hash"), ("ab", .vstr "areaType"), ("ac", .vstr "date"),
       ("ad", .vstr "areaName"), ("ae", .vstr "areaNameLower"),
       ("af", .vstr "areaCode"), ("ag", .vstr "covidOccupiedMVBeds"),
       ("ah", .vstr "cumAdmissions"), ("ai", .vstr "hospitalCases")])) = true ∧
    ∀ struct : StructInput, format_structure struct ≠ .error (.api .structureTooLarge) := by
  refine ⟨rfl, ?_⟩
  intro struct h
  cases struct with
  | sother => simp [format_structure] at h
  | sdict entries =>
    unfold format_structure at h
    dsimp only at h
    cases hs : json_pattern_sub_aux (struct_dumps (.sdict entries)).data.length
        (struct_dumps (.sdict entries)).data with
    | error e =>
      have he := json_pattern_sub_aux_error _ _ _ hs
      rw [hs] at h
      simp only [Except.map, Except.error.injEq] at h
      rw [he] at h
      exact absurd h (by decide)
    | ok l => rw [hs] at h; simp [Except.map] at h
  | slist elems =>
    unfold format_structure at h
    dsimp only at h
    cases hs : array_pattern_sub_aux (struct_dumps (.slist elems)).data.length
        (struct_dumps (.slist elems)).data with
    | error e =>
      have he := array_pattern_sub_aux_error _ _ _ hs
      rw [hs] at h
      simp only [Except.map, Except.error.injEq] at h
      rw [he] at h
      exact absurd h (by decide)
    | ok l => rw [hs] at h; simp [Except.map] at h

end CovidApi
